import Mathlib

/-!
Verification of the Elementum DSA orchestration core.

This development is a shallow embedding, in Lean 4, of the Python
orchestration core of the repository: the agent registry and selection
heuristic of `core/mca.py`, the governance engine of `core/governance.py`,
the interaction protocols of `core/protocols.py`, and the monitoring
metrics of `elementum_dsa/core/monitoring.py`.

Python dictionaries are modelled as insertion-ordered association lists
with unique keys (`dictGet`/`dictSet`/`dictRemove` mirror `d[k]`,
`d[k] = v` and `d.pop(k)`).  Dynamically typed Python values that flow
through agent responses are modelled by the inductive type `PyVal`.
Machine floating point time stamps are modelled by rationals supplied as
explicit clock arguments.  Python exceptions raised by an agent's
`process_query` are modelled by `Except String`: an `Except.error`
result stands for a raised exception, which the protocol layer catches.
-/

namespace ElementumDSA

/-- A dynamically typed Python value, as it appears in agent responses,
contexts and envelopes: `None`, strings, numbers (int/float, modelled as
rationals), booleans, lists and string-keyed dicts. -/
inductive PyVal where
  | none : PyVal
  | str : String → PyVal
  | num : ℚ → PyVal
  | bool : Bool → PyVal
  | list : List PyVal → PyVal
  | dict : List (String × PyVal) → PyVal

/-- A Python dict with string keys: an insertion-ordered association list. -/
abbrev PyDict := List (String × PyVal)

/-- Structural equality of Python values (`==` in the source).  Dicts are
compared entrywise in insertion order; for the duplicate-free dicts the
source builds this coincides with Python's order-insensitive dict
equality whenever both sides are built in the same key order. -/
def PyVal.beq : PyVal → PyVal → Bool
  | .none, .none => true
  | .str a, .str b => a == b
  | .num a, .num b => a == b
  | .bool a, .bool b => a == b
  | .list [], .list [] => true
  | .list (x :: xs), .list (y :: ys) => PyVal.beq x y && PyVal.beq (.list xs) (.list ys)
  | .dict [], .dict [] => true
  | .dict ((k, v) :: xs), .dict ((k2, v2) :: ys) =>
      k == k2 && PyVal.beq v v2 && PyVal.beq (.dict xs) (.dict ys)
  | _, _ => false

theorem PyVal.beq_refl : ∀ v : PyVal, PyVal.beq v v = true
  | .none => by simp [PyVal.beq]
  | .str a => by simp [PyVal.beq]
  | .num a => by simp [PyVal.beq]
  | .bool a => by simp [PyVal.beq]
  | .list [] => by simp [PyVal.beq]
  | .list (x :: xs) => by
      simp [PyVal.beq, PyVal.beq_refl x, PyVal.beq_refl (.list xs)]
  | .dict [] => by simp [PyVal.beq]
  | .dict ((k, v) :: xs) => by
      simp [PyVal.beq, PyVal.beq_refl v, PyVal.beq_refl (.dict xs)]

/-- Equality of two Python dicts (`response == expected` in the source). -/
def pyDictBeq (a b : PyDict) : Bool := PyVal.beq (.dict a) (.dict b)

theorem pyDictBeq_refl (a : PyDict) : pyDictBeq a a = true :=
  PyVal.beq_refl (.dict a)

/-- `d.get(k)` / `d[k]` on a Python dict: the value bound to the first
(and, for well-formed dicts, only) occurrence of key `k`. -/
def dictGet {α : Type} (d : List (String × α)) (k : String) : Option α :=
  match d with
  | [] => Option.none
  | p :: rest => if p.1 = k then some p.2 else dictGet rest k

/-- `k in d` on a Python dict. -/
def dictContains {α : Type} (d : List (String × α)) (k : String) : Bool :=
  (dictGet d k).isSome

/-- `d[k] = v` on a Python dict: replace the value at `k` in place if the
key is present, otherwise append the new binding. -/
def dictSet {α : Type} (d : List (String × α)) (k : String) (v : α) :
    List (String × α) :=
  match d with
  | [] => [(k, v)]
  | p :: rest => if p.1 = k then (k, v) :: rest else p :: dictSet rest k v

/-- `d.pop(k)` / `del d[k]` on a Python dict (the binding removed; for
well-formed dicts there is at most one). -/
def dictRemove {α : Type} (d : List (String × α)) (k : String) :
    List (String × α) :=
  d.filter (fun p => p.1 ≠ k)

/-- Apply `f` to the value stored at key `k` (used for in-place mutation
of a bucket such as `self.domain_agents[domain].append(...)`). -/
def dictModify {α : Type} (d : List (String × α)) (k : String) (f : α → α) :
    List (String × α) :=
  match d with
  | [] => []
  | p :: rest => if p.1 = k then (p.1, f p.2) :: rest else p :: dictModify rest k f

/-- `l.remove(x)` on a Python list: remove the first occurrence of `x`. -/
def removeFirst (l : List String) (x : String) : List String :=
  match l with
  | [] => []
  | y :: rest => if y = x then rest else y :: removeFirst rest x

theorem dictGet_dictSet_self {α : Type} (d : List (String × α)) (k : String) (v : α) :
    dictGet (dictSet d k v) k = some v := by
  induction d with
  | nil => simp [dictSet, dictGet]
  | cons p rest ih =>
    by_cases h : p.1 = k
    · simp [dictSet, h, dictGet]
    · simpa [dictSet, h, dictGet] using ih

theorem dictGet_dictSet_ne {α : Type} (d : List (String × α)) (k k' : String) (v : α)
    (h : k' ≠ k) : dictGet (dictSet d k v) k' = dictGet d k' := by
  induction d with
  | nil => simp [dictSet, dictGet, Ne.symm h]
  | cons p rest ih =>
    by_cases hp : p.1 = k
    · subst hp
      simp [dictSet, dictGet, Ne.symm h]
    · by_cases hk' : p.1 = k'
      · simp [dictSet, hp, dictGet, hk', h]
      · simpa [dictSet, hp, dictGet, hk', h] using ih

theorem dictGet_dictRemove_self {α : Type} (d : List (String × α)) (k : String) :
    dictGet (dictRemove d k) k = Option.none := by
  induction d with
  | nil => simp [dictRemove, dictGet]
  | cons p rest ih =>
    by_cases h : p.1 = k
    · simpa [dictRemove, h] using ih
    · simpa [dictRemove, dictGet, h, List.filter] using ih

theorem dictGet_dictRemove_ne {α : Type} (d : List (String × α)) (k k' : String)
    (h : k' ≠ k) : dictGet (dictRemove d k) k' = dictGet d k' := by
  induction d with
  | nil => simp [dictRemove]
  | cons p rest ih =>
    by_cases hp : p.1 = k
    · subst hp
      simpa [dictRemove, dictGet, List.filter, Ne.symm h] using ih
    · by_cases hk' : p.1 = k'
      · simp [dictRemove, dictGet, List.filter, hp, hk', h]
      · simpa [dictRemove, dictGet, List.filter, hp, hk', h] using ih

theorem dictGet_dictModify_self {α : Type} (d : List (String × α)) (k : String)
    (f : α → α) : dictGet (dictModify d k f) k = (dictGet d k).map f := by
  induction d with
  | nil => simp [dictModify, dictGet]
  | cons p rest ih =>
    by_cases h : p.1 = k
    · simp [dictModify, h, dictGet]
    · simpa [dictModify, h, dictGet] using ih

theorem dictGet_dictModify_ne {α : Type} (d : List (String × α)) (k k' : String)
    (f : α → α) (h : k' ≠ k) :
    dictGet (dictModify d k f) k' = dictGet d k' := by
  induction d with
  | nil => simp [dictModify]
  | cons p rest ih =>
    by_cases hp : p.1 = k
    · subst hp
      simp [dictModify, dictGet, Ne.symm h]
    · by_cases hk' : p.1 = k'
      · simp [dictModify, dictGet, hp, hk', h]
      · simpa [dictModify, hp, dictGet, hk', h] using ih

theorem dictGet_mem {α : Type} {d : List (String × α)} {k : String} {v : α}
    (h : dictGet d k = some v) : (k, v) ∈ d := by
  induction d with
  | nil => simp [dictGet] at h
  | cons p rest ih =>
    by_cases hp : p.1 = k
    · have h2 : p.2 = v := by simpa [dictGet, hp] using h
      have hpkv : p = (k, v) := by
        cases p
        simp_all
      simp [hpkv]
    · simp [dictGet, hp] at h
      exact List.mem_cons_of_mem _ (ih h)

/-!
## Monitoring (`elementum_dsa/core/monitoring.py`)

`time.time()` and `datetime.now()` readings are ambient clock inputs;
they are passed in as explicit rational arguments.  A recorded entry is
the `{"timestamp": ..., "value": ...}` dict the source appends to
`self.values`.
-/

/-- One recorded measurement: the `{"timestamp", "value"}` dict appended
by `PerformanceMetric.record`. -/
structure MetricEntry where
  timestamp : ℚ
  value : ℚ
deriving DecidableEq

/-- State of a `PerformanceMetric` instance.  `start_time` is the extra
attribute of the `ResponseTimeMetric` subclass (it stays `none` and is
never read for every other metric). -/
structure PerformanceMetric where
  metric_id : String
  description : String
  values : List MetricEntry
  start_time : Option ℚ
deriving DecidableEq

namespace PerformanceMetric

/-- `PerformanceMetric.record`: append a value (with the current clock
reading as its timestamp) to the metric's history. -/
def record (m : PerformanceMetric) (ts v : ℚ) : PerformanceMetric :=
  { m with values := m.values ++ [⟨ts, v⟩] }

/-- `PerformanceMetric.get_latest`: the last recorded entry, or `None`
if nothing has been recorded. -/
def get_latest (m : PerformanceMetric) : Option MetricEntry :=
  m.values.getLast?

/-- `PerformanceMetric.get_history`. -/
def get_history (m : PerformanceMetric) : List MetricEntry :=
  m.values

end PerformanceMetric

namespace ResponseTimeMetric

/-- `ResponseTimeMetric.__init__`: id `"response_time"`, no values, no
armed start time. -/
def init : PerformanceMetric :=
  { metric_id := "response_time",
    description := "Measures the time taken to process a query",
    values := [], start_time := Option.none }

/-- `ResponseTimeMetric.start`: arm the timer with the current clock. -/
def start (m : PerformanceMetric) (t : ℚ) : PerformanceMetric :=
  { m with start_time := some t }

/-- `ResponseTimeMetric.stop`: if armed, record and return the elapsed
time and disarm; otherwise return `None` and record nothing. -/
def stop (m : PerformanceMetric) (t : ℚ) : Option ℚ × PerformanceMetric :=
  match m.start_time with
  | some s =>
      (some (t - s), { m.record t (t - s) with start_time := Option.none })
  | Option.none => (Option.none, m)

end ResponseTimeMetric

namespace AccuracyMetric

/-- `AccuracyMetric.__init__`. -/
def init : PerformanceMetric :=
  { metric_id := "accuracy",
    description := "Measures the accuracy of responses",
    values := [], start_time := Option.none }

/-- The accuracy score of `AccuracyMetric.evaluate`: the fixed default
`0.8` when no expected response is supplied; `1.0` on exact equality;
otherwise the fraction of expected keys also present in the actual
response (`0.0` when the expected key set is empty). -/
def score (response : PyDict) (expected : Option PyDict) : ℚ :=
  match expected with
  | Option.none => 0.8
  | some e =>
      if pyDictBeq response e then 1.0
      else
        let response_keys := (response.map Prod.fst).dedup
        let expected_keys := (e.map Prod.fst).dedup
        let common_keys := response_keys.filter (fun k => expected_keys.contains k)
        if expected_keys.isEmpty then 0.0
        else (common_keys.length : ℚ) / (expected_keys.length : ℚ)

/-- `AccuracyMetric.evaluate`: compute the score, record it, and return
it together with the updated metric. -/
def evaluate (m : PerformanceMetric) (ts : ℚ) (response : PyDict)
    (expected : Option PyDict) : ℚ × PerformanceMetric :=
  let s := score response expected
  (s, m.record ts s)

end AccuracyMetric

/-- State of a `MonitoringSystem` instance: the `metrics` dict keyed by
`metric_id`. -/
structure MonitoringSystem where
  metrics : List (String × PerformanceMetric)
deriving DecidableEq

namespace MonitoringSystem

/-- `MonitoringSystem.__init__`: registers a `ResponseTimeMetric` and an
`AccuracyMetric`. -/
def init : MonitoringSystem :=
  { metrics := [("response_time", ResponseTimeMetric.init),
                ("accuracy", AccuracyMetric.init)] }

/-- `MonitoringSystem.register_metric`. -/
def register_metric (sys : MonitoringSystem) (m : PerformanceMetric) :
    MonitoringSystem :=
  { metrics := dictSet sys.metrics m.metric_id m }

/-- `MonitoringSystem.get_metric`. -/
def get_metric (sys : MonitoringSystem) (metric_id : String) :
    Option PerformanceMetric :=
  dictGet sys.metrics metric_id

/-- `MonitoringSystem.start_timing` at clock reading `t`. -/
def start_timing (sys : MonitoringSystem) (t : ℚ) : MonitoringSystem :=
  match get_metric sys "response_time" with
  | some m =>
      { metrics := dictSet sys.metrics "response_time" (ResponseTimeMetric.start m t) }
  | Option.none => sys

/-- `MonitoringSystem.stop_timing` at clock reading `t`. -/
def stop_timing (sys : MonitoringSystem) (t : ℚ) :
    Option ℚ × MonitoringSystem :=
  match get_metric sys "response_time" with
  | some m =>
      let r := ResponseTimeMetric.stop m t
      (r.1, { metrics := dictSet sys.metrics "response_time" r.2 })
  | Option.none => (Option.none, sys)

/-- `MonitoringSystem.record_accuracy` at clock reading `ts`. -/
def record_accuracy (sys : MonitoringSystem) (ts : ℚ) (response : PyDict)
    (expected : Option PyDict) : Option ℚ × MonitoringSystem :=
  match get_metric sys "accuracy" with
  | some m =>
      let r := AccuracyMetric.evaluate m ts response expected
      (some r.1, { metrics := dictSet sys.metrics "accuracy" r.2 })
  | Option.none => (Option.none, sys)

/-- `MonitoringSystem.get_metrics_summary`: one `summary[metric_id]`
assignment per registered metric, the latest value or `None`. -/
def get_metrics_summary (sys : MonitoringSystem) : List (String × Option ℚ) :=
  sys.metrics.foldl
    (fun summary p =>
      dictSet summary p.1 ((PerformanceMetric.get_latest p.2).map MetricEntry.value))
    []

end MonitoringSystem

/-!
## Agents (`elementum_dsa/core/agent.py`) and governance (`core/governance.py`)

An agent's identity attributes (`agent_id`, `domain`, `version`,
`capabilities`) are grouped in `AgentMeta`; its behaviour is the pair of
functions `process` (for `process_query`; an `Except.error` result
models a raised exception) and `validate` (for `validate_response`).
Governance rules are pure functions of the dispatch context
`{"agent": ..., "query": ..., "context": ...}`; they read only the
agent's identity attributes, as the rules in the source do.
-/

/-- The identity attributes of an `Agent`. -/
structure AgentMeta where
  agent_id : String
  domain : String
  version : ℚ
  capabilities : List String
deriving DecidableEq

/-- A registered agent: identity plus behaviour. -/
structure Agent where
  meta : AgentMeta
  process : String → PyDict → Except String PyDict
  validate : PyDict → Bool

/-- The governance context `{"agent": ..., "query": ..., "context": ...}`
built by the orchestrator.  The `agent` slot is `Option`-valued because
`process_query` builds the context from a possibly-`None` agent lookup. -/
structure GovCtx where
  agent : Option AgentMeta
  query : String
  context : PyDict

/-- A rule verdict: the dict a rule's `evaluate` returns.  `severity` is
present exactly when the rule includes it (the source's rules include it
only in `violation` verdicts). -/
structure Verdict where
  rule_id : String
  status : String
  severity : Option String
  message : String
deriving DecidableEq

/-- The verdict dict as a `PyVal` (the shape the source's rules build:
`severity` is included only when set). -/
def Verdict.toPyVal (v : Verdict) : PyVal :=
  .dict ([("rule_id", .str v.rule_id), ("status", .str v.status)] ++
    (match v.severity with
     | some s => [("severity", .str s)]
     | Option.none => []) ++
    [("message", .str v.message)])

/-- A governance rule: identity, description, severity, and its pure
`evaluate` function over the dispatch context. -/
structure GovernanceRule where
  rule_id : String
  description : String
  severity : String
  evaluate : GovCtx → Verdict

/-- State of a `GovernanceEngine`: the `rules` dict keyed by `rule_id`. -/
structure GovernanceEngine where
  rules : List (String × GovernanceRule)

/-- Result of `GovernanceEngine.evaluate`. -/
structure EvalOutcome where
  results : List (String × Verdict)
  violations : List Verdict
  status : String

/-- Result of `GovernanceEngine.enforce`.  In the `proceed` branch the
source's dict carries no `violations` key; that is modelled as `[]`. -/
structure EnforceOutcome where
  action : String
  violations : List Verdict
  message : String

/-- The enforcement-result dict as a `PyVal`. -/
def EnforceOutcome.toPyVal (r : EnforceOutcome) : PyVal :=
  .dict [("action", .str r.action),
         ("violations", .list (r.violations.map Verdict.toPyVal)),
         ("message", .str r.message)]

namespace GovernanceEngine

/-- `GovernanceEngine.register_rule`. -/
def register_rule (g : GovernanceEngine) (r : GovernanceRule) : GovernanceEngine :=
  { rules := dictSet g.rules r.rule_id r }

/-- The list of verdicts produced by one pass over the registered rules. -/
def verdicts (g : GovernanceEngine) (ctx : GovCtx) : List Verdict :=
  g.rules.map (fun p => p.2.evaluate ctx)

/-- `GovernanceEngine.evaluate`: run every rule against the context,
collecting per-rule results and the verdicts whose status is
`"violation"`. -/
def evaluate (g : GovernanceEngine) (ctx : GovCtx) : EvalOutcome :=
  let results := g.rules.map (fun p => (p.1, p.2.evaluate ctx))
  let violations := (verdicts g ctx).filter (fun v => v.status == "violation")
  { results := results,
    violations := violations,
    status := if violations.isEmpty then "compliant" else "violations_detected" }

/-- `GovernanceEngine.enforce`: `block` on a critical violation, `warn`
on any other violation, else `proceed`.  The source reads
`v["severity"]`; every violation verdict the source's rules produce
carries a severity, and a missing one is modelled as not critical. -/
def enforce (g : GovernanceEngine) (ctx : GovCtx) : EnforceOutcome :=
  let evaluation := evaluate g ctx
  if evaluation.status == "violations_detected" then
    let critical_violations :=
      evaluation.violations.filter (fun v => v.severity == some "critical")
    if critical_violations.isEmpty then
      { action := "warn", violations := evaluation.violations,
        message := "Proceeding with warnings" }
    else
      { action := "block", violations := critical_violations,
        message := "Blocked due to critical violations" }
  else
    { action := "proceed", violations := [],
      message := "No violations detected" }

end GovernanceEngine

/-!
## Protocols (`core/protocols.py`) and error formatting (`core/errors.py`)

Every caller-facing dict produced by a protocol or by the orchestrator is
an `Envelope`: one structure whose optional fields stand for the keys
the various response dicts of the source may carry (`none` = key absent;
for `agent_id`/`domain`/`query` of error envelopes, `none` also stands
for an explicit `None` value).  `status` is always present, as in every
response dict the source builds.
-/

/-- A caller-facing response dict. -/
structure Envelope where
  status : String
  protocol_id : Option String := Option.none
  event : Option String := Option.none
  response : Option PyDict := Option.none
  error : Option PyVal := Option.none
  violations : Option (List Verdict) := Option.none
  blocked_agents : Option PyVal := Option.none
  warnings : Option PyVal := Option.none
  performance : Option (Option ℚ) := Option.none
  agent_id : Option String := Option.none
  domain : Option String := Option.none
  query : Option String := Option.none

/-- The `to_dict` payload of an `AgentException` raised by the
orchestrator (`core/errors.py`). -/
def agentExceptionData (message : String) (domain : Option String)
    (agent_id : Option String) : PyVal :=
  .dict [("message", .str message),
         ("domain", domain.elim PyVal.none PyVal.str),
         ("error_code", .str "AGENT_ERROR"),
         ("agent_id", agent_id.elim PyVal.none PyVal.str)]

/-- The error payload `format_error_response` builds for an exception
that is not a `DomainException`. -/
def generalErrorData (message : String) : PyVal :=
  .dict [("message", .str message), ("error_code", .str "GENERAL_ERROR")]

/-- `format_error_response`: the uniform `status="error"` envelope. -/
def format_error_response (error_data : PyVal)
    (agent_id domain query : Option String) : Envelope :=
  { status := "error", agent_id := agent_id, domain := domain,
    query := query, error := some error_data }

/-- Python's `needle` is a prefix of `hay` (character comparison). -/
def charsLeadWith : List Char → List Char → Bool
  | [], _ => true
  | _ :: _, [] => false
  | c :: cs, d :: ds => c == d && charsLeadWith cs ds

/-- Python's `needle in hay` substring test on character lists. -/
def charsHasSub : List Char → List Char → Bool
  | needle, [] => charsLeadWith needle []
  | needle, c :: hs => charsLeadWith needle (c :: hs) || charsHasSub needle hs

/-- Python's `needle in hay` on strings. -/
def pyInStr (needle hay : String) : Bool :=
  charsHasSub needle.toList hay.toList

/-- Python's `s.lower()`. -/
def strLower (s : String) : String :=
  String.mk (s.toList.map Char.toLower)

/-- Python's `str(value)`, as used when interpolating a response value
into a collaboration-query template.  Container rendering is abbreviated:
the generated text is only ever passed back into an agent's `process`. -/
def PyVal.pyStr : PyVal → String
  | .none => "None"
  | .str s => s
  | .num q => toString q
  | .bool b => if b then "True" else "False"
  | .list _ => "[...]"
  | .dict _ => "\x7b...\x7d"

/-- The event payload of the direct protocol.  The outer `Option` of
`agent` is key presence; the inner one models a `None` value (the
orchestrator can pass `agent=None` after a stale registry lookup). -/
structure QueryData where
  agent : Option (Option Agent) := Option.none
  query : Option String := Option.none
  context : Option PyDict := Option.none

namespace DirectProtocol

/-- `DirectProtocol._handle_query`. -/
def handle_query (data : QueryData) : Envelope :=
  match data.agent, data.query with
  | some agentVal, some query =>
      let context := data.context.getD []
      match agentVal with
      | some agent =>
          match agent.process query context with
          | .ok response =>
              if agent.validate response then
                { status := "success", protocol_id := some "direct_protocol",
                  event := some "query", response := some response }
              else
                { status := "error", protocol_id := some "direct_protocol",
                  event := some "query",
                  error := some (.str "Agent returned an invalid response") }
          | .error e =>
              { status := "error", protocol_id := some "direct_protocol",
                event := some "query", error := some (.str e) }
      | Option.none =>
          -- calling `process_query` on a `None` agent raises an
          -- AttributeError inside the handler's `try`, caught below it
          { status := "error", protocol_id := some "direct_protocol",
            event := some "query",
            error := some (.str "NoneType object has no attribute process_query") }
  | _, _ =>
      { status := "error", protocol_id := some "direct_protocol",
        event := some "query",
        error := some (.str "Missing required data: agent, query") }

/-- `Protocol.handle_event` for a `DirectProtocol` instance, whose
handler table holds the single entry `"query"`. -/
def handle_event (event : String) (data : QueryData) : Envelope :=
  if event = "query" then handle_query data
  else
    { status := "error", protocol_id := some "direct_protocol",
      event := some event,
      error := some (.str ("No handler registered for event: " ++ event)) }

end DirectProtocol

/-- The event payload of the collaborative protocol. -/
structure CollabData where
  primary_agent : Option Agent := Option.none
  support_agents : Option (List Agent) := Option.none
  query : Option String := Option.none
  context : Option PyDict := Option.none

namespace CollaborativeProtocol

/-- `CollaborativeProtocol._extract_response_info`. -/
def extract_response_info (response : PyDict) : PyDict :=
  let extracted : PyDict :=
    [("agent_id", (dictGet response "agent_id").getD .none),
     ("domain", (dictGet response "domain").getD .none),
     ("response", (dictGet response "response").getD .none),
     ("status", (dictGet response "status").getD .none)]
  ["data", "metadata", "recommendations"].foldl
    (fun acc key =>
      match dictGet response key with
      | some v => dictSet acc key v
      | Option.none => acc)
    extracted

/-- `CollaborativeProtocol._generate_collaboration_query`: a template
chosen by substring match on the support agent's domain. -/
def generate_collaboration_query (original_query : String)
    (primary_info : PyDict) (support_agent : Agent) : String :=
  let content := ((dictGet primary_info "response").getD (.str "")).pyStr
  if pyInStr "data_analysis" support_agent.meta.domain then
    "Analyze the following content and provide insights: " ++ content
  else if pyInStr "presentation_development" support_agent.meta.domain then
    "Create a presentation structure for the following content: " ++ content
  else
    "Enhance the following with your expertise: " ++ content

/-- The shared collaboration context handed to every support agent. -/
def collab_context (primary_info : PyDict) (original_query : String)
    (original_context : PyDict) : PyDict :=
  [("primary_response", .dict primary_info),
   ("original_query", .str original_query),
   ("original_context", .dict original_context),
   ("collaboration_type", .str "enhancement")]

/-- The support-agent loop of `_handle_collaborate`: each support agent,
in list order, processes its generated collaboration query; a response
failing the agent's own validation is skipped; a raised exception aborts
the whole collaboration. -/
def run_supports (support_agents : List Agent) (query : String)
    (primary_info : PyDict) (cctx : PyDict) : Except String (List PyDict) :=
  match support_agents with
  | [] => .ok []
  | agent :: rest =>
      match agent.process (generate_collaboration_query query primary_info agent) cctx with
      | .error e => .error e
      | .ok support_response =>
          match run_supports rest query primary_info cctx with
          | .error e => .error e
          | .ok rs =>
              .ok (if agent.validate support_response
                   then support_response :: rs else rs)

/-- One entry of `support_contributions`. -/
def contribution_of (response : PyDict) : PyVal :=
  .dict [("agent_id", (dictGet response "agent_id").getD .none),
         ("domain", (dictGet response "domain").getD .none),
         ("content", (dictGet response "response").getD .none)]

/-- Python's `needle in v` membership test on an arbitrary value, as in
`"insights" in response["data"]`: key test on a dict, element test on a
list, substring test on a string; a non-iterable value raises TypeError
(modelled as `Except.error`). -/
def pyIn (needle : String) (v : PyVal) : Except String Bool :=
  match v with
  | .dict d => .ok (dictContains d needle)
  | .list l => .ok (l.any (fun x => PyVal.beq x (.str needle)))
  | .str s => .ok (pyInStr needle s)
  | .none => .error "TypeError: argument of type NoneType is not iterable"
  | .num _ => .error "TypeError: argument of type number is not iterable"
  | .bool _ => .error "TypeError: argument of type bool is not iterable"

/-- Python's `v[k]` with a string key, as in `response["data"]["insights"]`:
dict lookup (KeyError when absent), TypeError on lists, strings and
other non-subscriptable values. -/
def pyIndexStr (v : PyVal) (k : String) : Except String PyVal :=
  match v with
  | .dict d =>
      match dictGet d k with
      | some x => .ok x
      | Option.none => .error ("KeyError: " ++ k)
  | .list _ => .error "TypeError: list indices must be integers or slices, not str"
  | .str _ => .error "TypeError: string indices must be integers"
  | _ => .error "TypeError: value is not subscriptable"

/-- Python's `acc.extend(v)`: lists extend elementwise, strings extend
with their one-character substrings, dicts with their keys; any other
value raises TypeError. -/
def pyExtend (acc : List PyVal) (v : PyVal) : Except String (List PyVal) :=
  match v with
  | .list l => .ok (acc ++ l)
  | .str s => .ok (acc ++ s.toList.map (fun c => PyVal.str (String.mk [c])))
  | .dict d => .ok (acc ++ d.map (fun p => PyVal.str p.1))
  | .none => .error "TypeError: NoneType object is not iterable"
  | .num _ => .error "TypeError: number object is not iterable"
  | .bool _ => .error "TypeError: bool object is not iterable"

/-- One iteration of the `all_insights` loop of `_integrate_responses`:
`if "data" in response and "insights" in response["data"]:
all_insights.extend(response["data"]["insights"])`.  Both the
membership test and the extend can raise. -/
def insights_step (acc : List PyVal) (response : PyDict) : Except String (List PyVal) :=
  match dictGet response "data" with
  | Option.none => .ok acc
  | some v =>
      match pyIn "insights" v with
      | .error e => .error e
      | .ok false => .ok acc
      | .ok true =>
          match pyIndexStr v "insights" with
          | .error e => .error e
          | .ok ins => pyExtend acc ins

/-- The full `all_insights` accumulation over the support responses. -/
def collect_insights (acc : List PyVal) : List PyDict → Except String (List PyVal)
  | [] => .ok acc
  | r :: rest =>
      match insights_step acc r with
      | .error e => .error e
      | .ok acc2 => collect_insights acc2 rest

/-- Write `combined_insights` under the `data` key (created as `{}` first
when absent, as the source does); item assignment into a non-dict `data`
value raises TypeError. -/
def set_combined_insights (integrated : PyDict) (ins : List PyVal) :
    Except String PyDict :=
  match dictGet integrated "data" with
  | some (.dict d) =>
      .ok (dictSet integrated "data" (.dict (dictSet d "combined_insights" (.list ins))))
  | Option.none =>
      .ok (dictSet integrated "data" (.dict [("combined_insights", .list ins)]))
  | some _ => .error "TypeError: object does not support item assignment"

/-- `CollaborativeProtocol._integrate_responses`.  An `Except.error`
result models a TypeError raised while merging insights; it propagates
to `_handle_collaborate`'s `try`. -/
def integrate_responses (primary_response : PyDict)
    (support_responses : List PyDict) : Except String PyDict :=
  let contributions := support_responses.map contribution_of
  let integrated := dictSet primary_response "support_contributions" (.list contributions)
  match collect_insights [] support_responses with
  | .error e => .error e
  | .ok all_insights =>
      match (if all_insights.isEmpty then Except.ok integrated
             else set_combined_insights integrated all_insights) with
      | .error e => .error e
      | .ok integrated2 =>
          .ok (dictSet integrated2 "integration_info"
            (.dict [("primary_agent", (dictGet primary_response "agent_id").getD .none),
                    ("support_agents",
                      .list (support_responses.map
                        (fun r => (dictGet r "agent_id").getD .none))),
                    ("integration_type", .str "enhancement")]))

/-- `CollaborativeProtocol._handle_collaborate`. -/
def handle_collaborate (data : CollabData) : Envelope :=
  match data.primary_agent, data.support_agents, data.query with
  | some primary_agent, some support_agents, some query =>
      let context := data.context.getD []
      match primary_agent.process query context with
      | .error e =>
          { status := "error", protocol_id := some "collaborative_protocol",
            event := some "collaborate", error := some (.str e) }
      | .ok primary_response =>
          if primary_agent.validate primary_response then
            let primary_info := extract_response_info primary_response
            let cctx := collab_context primary_info query context
            match run_supports support_agents query primary_info cctx with
            | .error e =>
                { status := "error", protocol_id := some "collaborative_protocol",
                  event := some "collaborate", error := some (.str e) }
            | .ok support_responses =>
                match integrate_responses primary_response support_responses with
                | .error e =>
                    { status := "error", protocol_id := some "collaborative_protocol",
                      event := some "collaborate", error := some (.str e) }
                | .ok integrated_response =>
                    { status := "success", protocol_id := some "collaborative_protocol",
                      event := some "collaborate",
                      response := some integrated_response }
          else
            { status := "error", protocol_id := some "collaborative_protocol",
              event := some "collaborate",
              error := some (.str "Primary agent returned an invalid response") }
  | _, _, _ =>
      { status := "error", protocol_id := some "collaborative_protocol",
        event := some "collaborate",
        error := some (.str "Missing required data: primary_agent, support_agents, query") }

/-- `Protocol.handle_event` for a `CollaborativeProtocol` instance, whose
handler table holds the single entry `"collaborate"`. -/
def handle_event (event : String) (data : CollabData) : Envelope :=
  if event = "collaborate" then handle_collaborate data
  else
    { status := "error", protocol_id := some "collaborative_protocol",
      event := some event,
      error := some (.str ("No handler registered for event: " ++ event)) }

end CollaborativeProtocol

/-!
## Orchestrator (`core/mca.py`)

The mutable state of a `MasterControlAgent` is the registry (`agents`
primary map and `domain_agents` index), the governance engine and the
monitoring system.  `process_query` and `collaborate` return the
caller-facing envelope together with the updated monitoring state (the
registry and governance rules are never mutated by a dispatch).  The two
clock arguments `t1 t2` are the `time.time()` readings taken when the
timing metric is started and stopped.
-/

/-- Python truthiness of an optional string argument (`if agent_id:`),
false for `None` and for the empty string. -/
def pyTruthy (o : Option String) : Bool :=
  match o with
  | some s => s ≠ ""
  | Option.none => false

/-- One entry of the per-agent governance results collected by
`collaborate`. -/
structure AgentGovResult where
  agent_id : String
  result : EnforceOutcome

/-- The `{"agent_id", "result"}` dict as a `PyVal`. -/
def AgentGovResult.toPyVal (r : AgentGovResult) : PyVal :=
  .dict [("agent_id", .str r.agent_id), ("result", r.result.toPyVal)]

/-- State of a `MasterControlAgent`. -/
structure MasterControlAgent where
  agents : List (String × Agent)
  domain_agents : List (String × List String)
  governance : GovernanceEngine
  monitoring : MonitoringSystem

namespace MasterControlAgent

/-- `MasterControlAgent.__init__`. -/
def init : MasterControlAgent :=
  { agents := [], domain_agents := [], governance := { rules := [] },
    monitoring := MonitoringSystem.init }

/-- `MasterControlAgent.register_agent`: insert into the primary map and
append the id to the domain bucket (created when absent). -/
def register_agent (mca : MasterControlAgent) (agent : Agent) : MasterControlAgent :=
  let agents := dictSet mca.agents agent.meta.agent_id agent
  let da :=
    if dictContains mca.domain_agents agent.meta.domain then mca.domain_agents
    else dictSet mca.domain_agents agent.meta.domain []
  let da := dictModify da agent.meta.domain (fun ids => ids ++ [agent.meta.agent_id])
  { mca with agents := agents, domain_agents := da }

/-- `MasterControlAgent.unregister_agent`: pop from the primary map,
remove the id from its domain bucket, and delete the bucket if it became
empty; a no-op for an unknown id. -/
def unregister_agent (mca : MasterControlAgent) (agent_id : String) :
    MasterControlAgent :=
  match dictGet mca.agents agent_id with
  | some agent =>
      let agents := dictRemove mca.agents agent_id
      let da :=
        match dictGet mca.domain_agents agent.meta.domain with
        | some bucket =>
            if bucket.contains agent_id then
              let bucket' := removeFirst bucket agent_id
              if bucket'.isEmpty then dictRemove mca.domain_agents agent.meta.domain
              else dictSet mca.domain_agents agent.meta.domain bucket'
            else mca.domain_agents
        | Option.none => mca.domain_agents
      { mca with agents := agents, domain_agents := da }
  | Option.none => mca

/-- `MasterControlAgent.get_agent`. -/
def get_agent (mca : MasterControlAgent) (agent_id : String) : Option Agent :=
  dictGet mca.agents agent_id

/-- `MasterControlAgent.get_agents_by_domain`: resolve each id of the
domain bucket, skipping ids that no longer resolve. -/
def get_agents_by_domain (mca : MasterControlAgent) (domain : String) :
    List Agent :=
  match dictGet mca.domain_agents domain with
  | some ids => ids.filterMap (fun i => get_agent mca i)
  | Option.none => []

/-- The keyword scan of `determine_agent`: the first registered domain
(in insertion order) whose lowercased name occurs in the lowercased
query and whose bucket is non-empty yields its first id. -/
def scan_domains (domain_agents : List (String × List String)) (query : String) :
    Option String :=
  match domain_agents with
  | [] => Option.none
  | (domain_name, agent_ids) :: rest =>
      if pyInStr (strLower domain_name) (strLower query) then
        match agent_ids with
        | i :: _ => some i
        | [] => scan_domains rest query
      else scan_domains rest query

/-- `MasterControlAgent.determine_agent`. -/
def determine_agent (mca : MasterControlAgent) (query : String)
    (domain : Option String) : Option String :=
  let fromDomain :=
    if pyTruthy domain then
      match get_agents_by_domain mca (domain.getD "") with
      | a :: _ => some a.meta.agent_id
      | [] => Option.none
    else Option.none
  match fromDomain with
  | some r => some r
  | Option.none => scan_domains mca.domain_agents query

/-- The agent-selection prelude of `process_query` (its
`if agent_id / elif domain / else` chain).  `Except.error` carries the
early-returned error envelope; the `ok` payload is `Option`-valued
because the `determine_agent` path stores `self.get_agent(...)` without
a `None` check. -/
def select_for_query (mca : MasterControlAgent) (query : String)
    (agent_id domain : Option String) : Except Envelope (Option Agent) :=
  if pyTruthy agent_id then
    match get_agent mca (agent_id.getD "") with
    | some a => .ok (some a)
    | Option.none =>
        .error (format_error_response
          (agentExceptionData ("Agent not found: " ++ agent_id.getD "")
            Option.none (some (agent_id.getD "")))
          (some (agent_id.getD "")) Option.none (some query))
  else if pyTruthy domain then
    match get_agents_by_domain mca (domain.getD "") with
    | a :: _ => .ok (some a)
    | [] =>
        .error (format_error_response
          (agentExceptionData ("No agents found for domain: " ++ domain.getD "")
            (some (domain.getD "")) Option.none)
          Option.none (some (domain.getD "")) (some query))
  else
    match determine_agent mca query Option.none with
    | some did =>
        if did ≠ "" then .ok (get_agent mca did)
        else
          .error (format_error_response
            (agentExceptionData
              "Could not determine an appropriate agent. Please specify agent_id or domain."
              Option.none Option.none)
            Option.none Option.none (some query))
    | Option.none =>
        .error (format_error_response
          (agentExceptionData
            "Could not determine an appropriate agent. Please specify agent_id or domain."
            Option.none Option.none)
          Option.none Option.none (some query))

/-- `MasterControlAgent.process_query`. -/
def process_query (mca : MasterControlAgent) (query : String)
    (agent_id domain : Option String) (context : Option PyDict)
    (t1 t2 : ℚ) : Envelope × MonitoringSystem :=
  let ctx := context.getD []
  match select_for_query mca query agent_id domain with
  | .error env => (env, mca.monitoring)
  | .ok agentOpt =>
      let governance_context : GovCtx :=
        { agent := agentOpt.map Agent.meta, query := query, context := ctx }
      let governance_result := mca.governance.enforce governance_context
      if governance_result.action = "block" then
        match agentOpt with
        | some agent =>
            ({ status := "blocked",
               error := some (.str governance_result.message),
               violations := some governance_result.violations,
               agent_id := some agent.meta.agent_id,
               domain := some agent.meta.domain,
               query := some query }, mca.monitoring)
        | Option.none =>
            -- `agent.agent_id` on a `None` agent raises, caught by the
            -- orchestrator's `except` and formatted as an error envelope
            (format_error_response
              (generalErrorData "NoneType object has no attribute agent_id")
              agent_id domain (some query), mca.monitoring)
      else
        let mon1 := mca.monitoring.start_timing t1
        let protocol_result :=
          DirectProtocol.handle_event "query"
            { agent := some agentOpt, query := some query, context := some ctx }
        let stopped := mon1.stop_timing t2
        let response_time := stopped.1
        let mon2 := stopped.2
        let mon3 :=
          if protocol_result.status = "success" then
            (mon2.record_accuracy t2 (protocol_result.response.getD []) Option.none).2
          else mon2
        let withWarnings :=
          if governance_result.action = "warn" then
            if protocol_result.status = "success" then
              { protocol_result with
                response := protocol_result.response.map
                  (fun r => dictSet r "warnings"
                    (.list (governance_result.violations.map Verdict.toPyVal))) }
            else
              { protocol_result with
                warnings := some (.list (governance_result.violations.map Verdict.toPyVal)) }
          else protocol_result
        let final :=
          if withWarnings.status = "success" then
            { withWarnings with
              response := withWarnings.response.map
                (fun r => dictSet r "performance"
                  (.dict [("response_time", response_time.elim PyVal.none PyVal.num)])) }
          else { withWarnings with performance := some response_time }
        (final, mon3)

/-- `MasterControlAgent.collaborate`. -/
def collaborate (mca : MasterControlAgent) (query : String)
    (primary_agent_id : String) (support_agent_ids : List String)
    (context : Option PyDict) (t1 t2 : ℚ) : Envelope × MonitoringSystem :=
  let ctx := context.getD []
  match get_agent mca primary_agent_id with
  | Option.none =>
      (format_error_response
        (agentExceptionData ("Primary agent not found: " ++ primary_agent_id)
          Option.none (some primary_agent_id))
        (some primary_agent_id) Option.none (some query), mca.monitoring)
  | some primary_agent =>
      let support_agents := support_agent_ids.filterMap (get_agent mca)
      let missing_agents := support_agent_ids.filter (fun i => (get_agent mca i).isNone)
      if missing_agents.isEmpty then
        let governance_results : List AgentGovResult :=
          (primary_agent :: support_agents).map
            (fun a => { agent_id := a.meta.agent_id,
                        result := mca.governance.enforce
                          { agent := some a.meta, query := query, context := ctx } })
        let blocked_agents := governance_results.filter (fun r => r.result.action = "block")
        if blocked_agents.isEmpty then
          let mon1 := mca.monitoring.start_timing t1
          let protocol_result :=
            CollaborativeProtocol.handle_event "collaborate"
              { primary_agent := some primary_agent,
                support_agents := some support_agents,
                query := some query, context := some ctx }
          let stopped := mon1.stop_timing t2
          let response_time := stopped.1
          let mon2 := stopped.2
          let mon3 :=
            if protocol_result.status = "success" then
              (mon2.record_accuracy t2 (protocol_result.response.getD []) Option.none).2
            else mon2
          let warning_agents := governance_results.filter (fun r => r.result.action = "warn")
          let withWarnings :=
            if warning_agents.isEmpty then protocol_result
            else if protocol_result.status = "success" then
              { protocol_result with
                response := protocol_result.response.map
                  (fun r => dictSet r "warnings"
                    (.list (warning_agents.map AgentGovResult.toPyVal))) }
            else
              { protocol_result with
                warnings := some (.list (warning_agents.map AgentGovResult.toPyVal)) }
          let final :=
            if withWarnings.status = "success" then
              { withWarnings with
                response := withWarnings.response.map
                  (fun r => dictSet r "performance"
                    (.dict [("response_time", response_time.elim PyVal.none PyVal.num)])) }
            else { withWarnings with performance := some response_time }
          (final, mon3)
        else
          ({ status := "blocked",
             error := some (.str "Collaboration blocked due to governance violations"),
             blocked_agents := some (.list (blocked_agents.map AgentGovResult.toPyVal)),
             query := some query }, mca.monitoring)
      else
        (format_error_response
          (agentExceptionData
            ("Support agents not found: " ++ String.intercalate ", " missing_agents)
            Option.none Option.none)
          (some primary_agent_id) Option.none (some query), mca.monitoring)

/-- `MasterControlAgent.get_performance_metrics`. -/
def get_performance_metrics (mca : MasterControlAgent) : List (String × Option ℚ) :=
  mca.monitoring.get_metrics_summary

end MasterControlAgent

/-- The weak registry invariant of the specification: every id present
in a domain bucket resolves in the primary map. -/
def WeakInv (mca : MasterControlAgent) : Prop :=
  ∀ dname ids i, dictGet mca.domain_agents dname = some ids → i ∈ ids →
    (dictGet mca.agents i).isSome

/-- A consistent registry: both dicts have unique keys, every domain
bucket is non-empty, duplicate-free, and holds only ids that resolve in
the primary map to an agent of that domain, and every registered agent's
id is present in its domain's bucket.  This is the state invariant the
registry operations maintain along fresh (non-duplicate) registrations. -/
@[reducible] def Consistent (mca : MasterControlAgent) : Prop :=
  (mca.agents.map Prod.fst).Nodup ∧
  (mca.domain_agents.map Prod.fst).Nodup ∧
  (∀ p ∈ mca.domain_agents, p.2 ≠ [] ∧ p.2.Nodup ∧
    ∀ i ∈ p.2, (dictGet mca.agents i).map (fun ag => ag.meta.domain) = some p.1) ∧
  (∀ q ∈ mca.agents, ((dictGet mca.domain_agents q.2.meta.domain).getD []).contains q.1)

/-- Replace every registered agent's behaviour pointwise, keeping the
registry structure.  Used to state that a dispatch outcome does not
depend on any agent's `process`/`validate` behaviour (the handler is
never invoked): a meta-preserving behaviour replacement leaves the
outcome unchanged. -/
def mapAgents (φ : Agent → Agent) (mca : MasterControlAgent) : MasterControlAgent :=
  { mca with agents := mca.agents.map (fun p => (p.1, φ p.2)) }

/-!
### Concrete fixtures

Small concrete agents, rules and orchestrator states used by the closed
instances below.
-/

/-- A well-behaved agent of domain `"alpha"`. -/
def alphaAgent : Agent :=
  { meta := { agent_id := "a1", domain := "alpha", version := 1, capabilities := [] },
    process := fun q _ =>
      .ok [("agent_id", .str "a1"), ("domain", .str "alpha"), ("query", .str q),
           ("response", .str "alpha says hi"), ("status", .str "complete")],
    validate := fun _ => true }

/-- An agent whose `process_query` always raises. -/
def raisingAgent : Agent :=
  { meta := { agent_id := "a2", domain := "beta", version := 1, capabilities := [] },
    process := fun _ _ => .error "boom",
    validate := fun _ => true }

/-- An orchestrator with one registered agent and no governance rules. -/
def oneAgentMca : MasterControlAgent :=
  MasterControlAgent.init.register_agent alphaAgent

/-- An orchestrator holding the raising agent. -/
def raisingMca : MasterControlAgent :=
  MasterControlAgent.init.register_agent raisingAgent

/-- A governance rule that always reports a critical violation. -/
def alwaysBlockRule : GovernanceRule :=
  { rule_id := "always_block", description := "always violates", severity := "critical",
    evaluate := fun _ =>
      { rule_id := "always_block", status := "violation",
        severity := some "critical", message := "always" } }

/-- An orchestrator whose only rule blocks every dispatch. -/
def blockingMca : MasterControlAgent :=
  { oneAgentMca with governance := { rules := [("always_block", alwaysBlockRule)] } }

/-- The response the collaboration fixture's primary agent returns for
the query `"make"`. -/
def primaryResponseFixture : PyDict :=
  [("agent_id", .str "p1"), ("domain", .str "alpha"), ("query", .str "make"),
   ("response", .str "primary content"), ("status", .str "complete")]

/-- The primary agent of the collaboration fixture. -/
def primaryFixture : Agent :=
  { meta := { agent_id := "p1", domain := "alpha", version := 1, capabilities := [] },
    process := fun q _ =>
      .ok [("agent_id", .str "p1"), ("domain", .str "alpha"), ("query", .str q),
           ("response", .str "primary content"), ("status", .str "complete")],
    validate := fun _ => true }

/-- The response of the validating support agent. -/
def goodSupportResponse : PyDict :=
  [("agent_id", .str "s1"), ("domain", .str "gamma"),
   ("response", .str "support content"), ("status", .str "complete")]

/-- The response of the non-validating support agent. -/
def badSupportResponse : PyDict :=
  [("agent_id", .str "s2"), ("domain", .str "delta"),
   ("response", .str "rejected content"), ("status", .str "complete")]

/-- A support agent whose responses pass its own validation. -/
def goodSupportFixture : Agent :=
  { meta := { agent_id := "s1", domain := "gamma", version := 1, capabilities := [] },
    process := fun _ _ => .ok goodSupportResponse,
    validate := fun _ => true }

/-- A support agent whose responses fail its own validation. -/
def badSupportFixture : Agent :=
  { meta := { agent_id := "s2", domain := "delta", version := 1, capabilities := [] },
    process := fun _ _ => .ok badSupportResponse,
    validate := fun _ => false }

/-- A primary response whose `data` value is a string, not a dict: the
five required keys are present, so it passes the minimal validation. -/
def primaryBadDataResponse : PyDict :=
  [("agent_id", .str "p2"), ("domain", .str "alpha"), ("query", .str "make"),
   ("response", .str "primary content"), ("status", .str "complete"),
   ("data", .str "x")]

/-- A primary agent returning `primaryBadDataResponse`. -/
def badDataPrimaryFixture : Agent :=
  { meta := { agent_id := "p2", domain := "alpha", version := 1, capabilities := [] },
    process := fun _ _ => .ok primaryBadDataResponse,
    validate := fun _ => true }

/-- A validating support response that carries `data.insights`. -/
def insightSupportResponse : PyDict :=
  [("agent_id", .str "s3"), ("domain", .str "gamma"),
   ("response", .str "support content"), ("status", .str "complete"),
   ("data", .dict [("insights", .list [.str "an insight"])])]

/-- A support agent returning `insightSupportResponse`, whose responses
pass its own validation. -/
def insightSupportFixture : Agent :=
  { meta := { agent_id := "s3", domain := "gamma", version := 1, capabilities := [] },
    process := fun _ _ => .ok insightSupportResponse,
    validate := fun _ => true }

/-!
## Theorems
-/

theorem enforce_formula (g : GovernanceEngine) (ctx : GovCtx) :
    g.enforce ctx =
      (if (g.verdicts ctx).filter (fun v => v.status == "violation") = [] then
        { action := "proceed", violations := [], message := "No violations detected" }
       else if ((g.verdicts ctx).filter (fun v => v.status == "violation")).filter
           (fun v => v.severity == some "critical") = [] then
        { action := "warn",
          violations := (g.verdicts ctx).filter (fun v => v.status == "violation"),
          message := "Proceeding with warnings" }
       else
        { action := "block",
          violations := ((g.verdicts ctx).filter (fun v => v.status == "violation")).filter
            (fun v => v.severity == some "critical"),
          message := "Blocked due to critical violations" }) := by
  unfold GovernanceEngine.enforce GovernanceEngine.evaluate
  by_cases hE : (g.verdicts ctx).filter (fun v => v.status == "violation") = []
  · have hEb : ((g.verdicts ctx).filter (fun v => v.status == "violation")).isEmpty = true := by
      simp only [List.isEmpty_iff]
      exact hE
    rw [if_pos hE]
    simp only [hEb]
    rfl
  · have hEb : ((g.verdicts ctx).filter (fun v => v.status == "violation")).isEmpty = false := by
      simp only [Bool.eq_false_iff, ne_eq, List.isEmpty_iff]
      exact hE
    rw [if_neg hE]
    by_cases hC : ((g.verdicts ctx).filter (fun v => v.status == "violation")).filter
        (fun v => v.severity == some "critical") = []
    · have hCb : (((g.verdicts ctx).filter (fun v => v.status == "violation")).filter
          (fun v => v.severity == some "critical")).isEmpty = true := by
        simp only [List.isEmpty_iff]
        exact hC
      rw [if_pos hC]
      simp only [hEb, hCb]
      rfl
    · have hCb : (((g.verdicts ctx).filter (fun v => v.status == "violation")).filter
          (fun v => v.severity == some "critical")).isEmpty = false := by
        simp only [Bool.eq_false_iff, ne_eq, List.isEmpty_iff]
        exact hC
      rw [if_neg hC]
      simp only [hEb, hCb]
      rfl

/-- C2: for every set of registered rules and every context, `enforce`
returns action `block` iff some rule verdict has status `violation` and
severity `critical`; `warn` iff some verdict is a violation and none of
the violations is critical; `proceed` otherwise (i.e. iff no verdict is
a violation).  Verdicts whose status is `error` (a rule that could not
evaluate its context) are not violations and are never counted. -/
theorem violation_filter_eq_nil_iff (g : GovernanceEngine) (ctx : GovCtx) :
    ((g.verdicts ctx).filter (fun v => v.status == "violation") = []) ↔
      ¬ ∃ v ∈ g.verdicts ctx, v.status = "violation" := by
  rw [List.filter_eq_nil_iff]
  constructor
  · rintro h ⟨v, hv, hs⟩
    have := h v hv
    simp [hs] at this
  · intro h v hv
    simp only [beq_iff_eq]
    intro hs
    exact h ⟨v, hv, hs⟩

theorem critical_filter_eq_nil_iff (g : GovernanceEngine) (ctx : GovCtx) :
    (((g.verdicts ctx).filter (fun v => v.status == "violation")).filter
        (fun v => v.severity == some "critical") = []) ↔
      ¬ ∃ v ∈ g.verdicts ctx, v.status = "violation" ∧ v.severity = some "critical" := by
  rw [List.filter_eq_nil_iff]
  constructor
  · rintro h ⟨v, hv, hs, hc⟩
    have hmem : v ∈ (g.verdicts ctx).filter (fun v => v.status == "violation") :=
      List.mem_filter.mpr ⟨hv, by simp [hs]⟩
    have := h v hmem
    simp [hc] at this
  · intro h v hv
    rw [List.mem_filter] at hv
    simp only [beq_iff_eq]
    intro hc
    exact h ⟨v, hv.1, by simpa using hv.2, hc⟩

/-- C2: for every set of registered rules and every context, `enforce`
returns action `block` iff some rule verdict has status `violation` and
severity `critical`; `warn` iff some verdict is a violation and none of
the violations is critical; `proceed` otherwise (i.e. iff no verdict is
a violation).  Verdicts whose status is `error` (a rule that could not
evaluate its context) are not violations and are never counted. -/
theorem governance_enforce_block_warn_proceed (g : GovernanceEngine) (ctx : GovCtx) :
    ((g.enforce ctx).action = "block" ↔
      ∃ v ∈ g.verdicts ctx, v.status = "violation" ∧ v.severity = some "critical") ∧
    ((g.enforce ctx).action = "warn" ↔
      ((∃ v ∈ g.verdicts ctx, v.status = "violation") ∧
        ¬ ∃ v ∈ g.verdicts ctx, v.status = "violation" ∧ v.severity = some "critical")) ∧
    ((g.enforce ctx).action = "proceed" ↔
      ∀ v ∈ g.verdicts ctx, v.status ≠ "violation") := by
  rw [enforce_formula]
  by_cases hE : (g.verdicts ctx).filter (fun v => v.status == "violation") = []
  · have h1 := (violation_filter_eq_nil_iff g ctx).mp hE
    have h2 : ¬ ∃ v ∈ g.verdicts ctx, v.status = "violation" ∧ v.severity = some "critical" := by
      rintro ⟨v, hv, hs, _⟩
      exact h1 ⟨v, hv, hs⟩
    rw [if_pos hE]
    refine ⟨?_, ?_, ?_⟩
    · simp [h2]
    · simp only [String.reduceEq, false_iff]
      rintro ⟨h3, _⟩
      exact h1 h3
    · simp only [true_iff]
      intro v hv hs
      exact h1 ⟨v, hv, hs⟩
  · by_cases hC : ((g.verdicts ctx).filter (fun v => v.status == "violation")).filter
        (fun v => v.severity == some "critical") = []
    · rw [if_neg hE, if_pos hC]
      refine ⟨?_, ?_, ?_⟩
      · simp [(critical_filter_eq_nil_iff g ctx).mp hC]
      · simp only [true_iff]
        refine ⟨?_, (critical_filter_eq_nil_iff g ctx).mp hC⟩
        by_contra h3
        exact hE ((violation_filter_eq_nil_iff g ctx).mpr h3)
      · simp only [String.reduceEq, false_iff]
        intro h3
        refine hE ((violation_filter_eq_nil_iff g ctx).mpr ?_)
        rintro ⟨v, hv, hs⟩
        exact h3 v hv hs
    · rw [if_neg hE, if_neg hC]
      refine ⟨?_, ?_, ?_⟩
      · simp only [true_iff]
        by_contra h3
        exact hC ((critical_filter_eq_nil_iff g ctx).mpr h3)
      · simp only [String.reduceEq, false_iff]
        rintro ⟨_, h4⟩
        exact hC ((critical_filter_eq_nil_iff g ctx).mpr h4)
      · simp only [String.reduceEq, false_iff]
        intro h3
        refine hE ((violation_filter_eq_nil_iff g ctx).mpr ?_)
        rintro ⟨v, hv, hs⟩
        exact h3 v hv hs

/-- C8: calling `stop` with no armed start time returns `None` and
records nothing (the metric is left unchanged); from the initial state,
`start` then `stop` appends exactly one recorded value, which is the
non-negative elapsed time and is also returned. -/
theorem response_time_metric_stop_start (m : PerformanceMetric) (t t1 t2 : ℚ) :
    (m.start_time = Option.none → ResponseTimeMetric.stop m t = (Option.none, m)) ∧
    (t1 ≤ t2 →
      (ResponseTimeMetric.stop (ResponseTimeMetric.start ResponseTimeMetric.init t1) t2).2.values
          = [⟨t2, t2 - t1⟩] ∧
      (ResponseTimeMetric.stop (ResponseTimeMetric.start ResponseTimeMetric.init t1) t2).1
          = some (t2 - t1) ∧
      0 ≤ t2 - t1) := by
  constructor
  · intro h
    simp [ResponseTimeMetric.stop, h]
  · intro h
    refine ⟨?_, ?_, sub_nonneg.mpr h⟩
    · simp [ResponseTimeMetric.stop, ResponseTimeMetric.start, ResponseTimeMetric.init,
        PerformanceMetric.record]
    · simp [ResponseTimeMetric.stop, ResponseTimeMetric.start, ResponseTimeMetric.init]

theorem response_time_metric_stop_start_witness :
    ResponseTimeMetric.stop ResponseTimeMetric.init 5 = (Option.none, ResponseTimeMetric.init) ∧
    ((ResponseTimeMetric.stop (ResponseTimeMetric.start ResponseTimeMetric.init 0) 1).2.values
        = [⟨1, 1 - 0⟩] ∧
      (ResponseTimeMetric.stop (ResponseTimeMetric.start ResponseTimeMetric.init 0) 1).1
        = some (1 - 0) ∧
      (0 : ℚ) ≤ 1 - 0) :=
  ⟨(response_time_metric_stop_start ResponseTimeMetric.init 5 0 1).1 rfl,
    (response_time_metric_stop_start ResponseTimeMetric.init 5 0 1).2 (by norm_num)⟩

/-- C9: `evaluate(r, r)` scores `1.0` for every map `r`;
`evaluate({"a":1}, {"a":1,"b":2})` scores `0.5`; `evaluate(r, None)`
scores the fixed default `0.8`; and each call appends exactly the
returned score to the metric's recorded values. -/
theorem accuracy_metric_evaluate_scores (m : PerformanceMetric) (ts : ℚ) (r : PyDict) :
    ((AccuracyMetric.evaluate m ts r (some r)).1 = 1 ∧
      (AccuracyMetric.evaluate m ts r (some r)).2.values = m.values ++ [⟨ts, 1⟩]) ∧
    ((AccuracyMetric.evaluate m ts [("a", .num 1)]
        (some [("a", .num 1), ("b", .num 2)])).1 = 0.5 ∧
      (AccuracyMetric.evaluate m ts [("a", .num 1)]
        (some [("a", .num 1), ("b", .num 2)])).2.values = m.values ++ [⟨ts, 0.5⟩]) ∧
    ((AccuracyMetric.evaluate m ts r Option.none).1 = 0.8 ∧
      (AccuracyMetric.evaluate m ts r Option.none).2.values = m.values ++ [⟨ts, 0.8⟩]) := by
  have hself : AccuracyMetric.score r (some r) = 1 := by
    simp [AccuracyMetric.score, pyDictBeq_refl]
    norm_num
  have hhalf : AccuracyMetric.score [("a", .num 1)]
      (some [("a", .num 1), ("b", .num 2)]) = 0.5 := by
    simp [AccuracyMetric.score, pyDictBeq, PyVal.beq]
    norm_num
  have hdefault : AccuracyMetric.score r Option.none = 0.8 := rfl
  refine ⟨⟨?_, ?_⟩, ⟨?_, ?_⟩, ⟨?_, ?_⟩⟩ <;>
    simp [AccuracyMetric.evaluate, PerformanceMetric.record, hself, hhalf, hdefault]

theorem dictGet_append_of_none {α : Type} (a b : List (String × α)) (k : String)
    (h : dictGet a k = Option.none) : dictGet (a ++ b) k = dictGet b k := by
  induction a with
  | nil => simp
  | cons p rest ih =>
    by_cases hp : p.1 = k
    · simp [dictGet, hp] at h
    · simp [dictGet, hp] at h ⊢
      exact ih h

theorem dictSet_eq_append_of_none {α : Type} (d : List (String × α)) (k : String) (v : α)
    (h : dictGet d k = Option.none) : dictSet d k v = d ++ [(k, v)] := by
  induction d with
  | nil => simp [dictSet]
  | cons p rest ih =>
    by_cases hp : p.1 = k
    · simp [dictGet, hp] at h
    · simp [dictGet, hp] at h
      simp [dictSet, hp, ih h]

theorem summary_foldl_general (l : List (String × PerformanceMetric))
    (acc : List (String × Option ℚ))
    (hdisj : ∀ p ∈ l, dictGet acc p.1 = Option.none)
    (hnodup : (l.map Prod.fst).Nodup) :
    l.foldl
      (fun summary p =>
        dictSet summary p.1 ((PerformanceMetric.get_latest p.2).map MetricEntry.value))
      acc =
    acc ++ l.map (fun p => (p.1, (PerformanceMetric.get_latest p.2).map MetricEntry.value)) := by
  induction l generalizing acc with
  | nil => simp
  | cons p rest ih =>
    have hacc : dictGet acc p.1 = Option.none := hdisj p (List.mem_cons_self p rest)
    have hstep := dictSet_eq_append_of_none acc p.1
      ((PerformanceMetric.get_latest p.2).map MetricEntry.value) hacc
    simp only [List.foldl_cons, hstep]
    have hcons : (p.1 :: rest.map Prod.fst).Nodup := by simpa using hnodup
    obtain ⟨hnotin, hnodup'⟩ := List.nodup_cons.mp hcons
    have hne : ∀ q ∈ rest, q.1 ≠ p.1 := by
      intro q hq hcontra
      exact hnotin (hcontra ▸ List.mem_map_of_mem Prod.fst hq)
    have hdisj' : ∀ q ∈ rest,
        dictGet (acc ++ [(p.1, (PerformanceMetric.get_latest p.2).map MetricEntry.value)]) q.1
          = Option.none := by
      intro q hq
      rw [dictGet_append_of_none _ _ _ (hdisj q (List.mem_cons_of_mem _ hq))]
      simp [dictGet, Ne.symm (hne q hq)]
    rw [ih _ hdisj' hnodup']
    simp

/-- C10: `get_metrics_summary` returns one entry per registered metric,
in registration order; a metric with at least one recorded value maps to
the `value` field of its latest entry (`get_latest`), and a metric with
no recorded values maps to `None` rather than being omitted. -/
theorem monitoring_summary_latest_or_none (sys : MonitoringSystem)
    (h : (sys.metrics.map Prod.fst).Nodup) :
    sys.get_metrics_summary =
      sys.metrics.map
        (fun p => (p.1, (PerformanceMetric.get_latest p.2).map MetricEntry.value)) := by
  have := summary_foldl_general sys.metrics [] (by intro p _; simp [dictGet]) h
  simpa [MonitoringSystem.get_metrics_summary] using this

theorem monitoring_summary_latest_or_none_witness :
    MonitoringSystem.init.get_metrics_summary =
      [("response_time", Option.none), ("accuracy", Option.none)] := by
  have := monitoring_summary_latest_or_none MonitoringSystem.init (by decide)
  simpa [MonitoringSystem.init, ResponseTimeMetric.init, AccuracyMetric.init,
    PerformanceMetric.get_latest] using this

theorem mem_of_mem_removeFirst {l : List String} {x i : String}
    (h : i ∈ removeFirst l x) : i ∈ l := by
  induction l with
  | nil => simp [removeFirst] at h
  | cons y rest ih =>
    by_cases hy : y = x
    · simp only [removeFirst, if_pos hy] at h
      exact List.mem_cons_of_mem _ h
    · simp only [removeFirst, if_neg hy] at h
      rcases List.mem_cons.mp h with h1 | h1
      · exact h1 ▸ List.mem_cons_self _ _
      · exact List.mem_cons_of_mem _ (ih h1)

theorem not_mem_removeFirst_self {l : List String} {x : String}
    (h : l.Nodup) : x ∉ removeFirst l x := by
  induction l with
  | nil => simp [removeFirst]
  | cons y rest ih =>
    obtain ⟨hy, hrest⟩ := List.nodup_cons.mp h
    by_cases hxy : y = x
    · simp only [removeFirst, if_pos hxy]
      exact hxy ▸ hy
    · simp only [removeFirst, if_neg hxy]
      intro hmem
      rcases List.mem_cons.mp hmem with h1 | h1
      · exact hxy h1.symm
      · exact ih hrest h1

theorem consistent_bucket_spec {mca : MasterControlAgent} {dname : String}
    {ids : List String} (hC : Consistent mca)
    (h : dictGet mca.domain_agents dname = some ids) :
    ids ≠ [] ∧ ids.Nodup ∧
      ∀ i ∈ ids, (dictGet mca.agents i).map (fun ag => ag.meta.domain) = some dname :=
  hC.2.2.1 (dname, ids) (dictGet_mem h)

theorem consistent_agent_bucket {mca : MasterControlAgent} {aid : String} {a : Agent}
    (hC : Consistent mca) (h : dictGet mca.agents aid = some a) :
    ∃ ids, dictGet mca.domain_agents a.meta.domain = some ids ∧ aid ∈ ids := by
  have h4 := hC.2.2.2 (aid, a) (dictGet_mem h)
  cases hda : dictGet mca.domain_agents a.meta.domain with
  | none => rw [hda] at h4; simp at h4
  | some ids =>
      rw [hda] at h4
      exact ⟨ids, rfl, by simpa using h4⟩

theorem consistent_weakInv {mca : MasterControlAgent} (hC : Consistent mca) :
    WeakInv mca := by
  intro dname ids i hda hmem
  have h3 := (consistent_bucket_spec hC hda).2.2 i hmem
  rcases Option.map_eq_some'.mp h3 with ⟨ag, hag, _⟩
  simp [hag]

/-- C6: unregistering a registered id removes it from the primary map
and from every domain bucket, deleting its domain's bucket when it was
the last occupant (so later domain lookups return empty); unregistering
an unknown id leaves the registry unchanged (no exception is possible:
the operation is total); and a single register or unregister step from a
consistent registry re-establishes the weak invariant that every id in a
domain bucket resolves in the primary map. -/
theorem registry_unregister_register_invariants (mca : MasterControlAgent)
    (aid : String) (a b : Agent) :
    (Consistent mca → mca.get_agent aid = some a →
      ((mca.unregister_agent aid).get_agent aid = Option.none ∧
       (∀ dname ids, dictGet (mca.unregister_agent aid).domain_agents dname = some ids →
          aid ∉ ids) ∧
       (dictGet mca.domain_agents a.meta.domain = some [aid] →
          dictGet (mca.unregister_agent aid).domain_agents a.meta.domain = Option.none ∧
          (mca.unregister_agent aid).get_agents_by_domain a.meta.domain = []))) ∧
    (mca.get_agent aid = Option.none → mca.unregister_agent aid = mca) ∧
    (Consistent mca → WeakInv (mca.register_agent b)) ∧
    (Consistent mca → WeakInv (mca.unregister_agent aid)) := by
  refine ⟨?_, ?_, ?_, ?_⟩
  · -- unregistering a registered id
    intro hC hget
    rw [MasterControlAgent.get_agent] at hget
    obtain ⟨ids0, hda, hmem⟩ := consistent_agent_bucket hC hget
    have hcont : ids0.contains aid = true := by simpa using hmem
    have hnodup0 := (consistent_bucket_spec hC hda).2.1
    have hu : mca.unregister_agent aid =
        { mca with
          agents := dictRemove mca.agents aid
          domain_agents :=
            if (removeFirst ids0 aid).isEmpty then
              dictRemove mca.domain_agents a.meta.domain
            else dictSet mca.domain_agents a.meta.domain (removeFirst ids0 aid) } := by
      simp only [MasterControlAgent.unregister_agent, hget, hda, hcont, if_true]
    refine ⟨?_, ?_, ?_⟩
    · rw [MasterControlAgent.get_agent, hu]
      exact dictGet_dictRemove_self mca.agents aid
    · intro dname ids h
      rw [hu] at h
      simp only at h
      by_cases hd : dname = a.meta.domain
      · subst hd
        by_cases hEmpty : (removeFirst ids0 aid).isEmpty
        · rw [if_pos hEmpty, dictGet_dictRemove_self] at h
          exact absurd h (by simp)
        · rw [if_neg hEmpty, dictGet_dictSet_self] at h
          have hids : ids = removeFirst ids0 aid := by
            cases h
            rfl
          rw [hids]
          exact not_mem_removeFirst_self hnodup0
      · have horig : dictGet mca.domain_agents dname = some ids := by
          by_cases hEmpty : (removeFirst ids0 aid).isEmpty
          · rw [if_pos hEmpty, dictGet_dictRemove_ne _ _ _ hd] at h
            exact h
          · rw [if_neg hEmpty, dictGet_dictSet_ne _ _ _ _ hd] at h
            exact h
        intro hin
        have h3 := (consistent_bucket_spec hC horig).2.2 aid hin
        rw [hget] at h3
        simp only [Option.map_some'] at h3
        cases h3
        exact hd rfl
    · intro hbucket
      have hids0 : ids0 = [aid] := by
        rw [hda] at hbucket
        cases hbucket
        rfl
      have hEmpty : (removeFirst ids0 aid).isEmpty = true := by
        rw [hids0]
        simp [removeFirst]
      rw [hu]
      simp only [hEmpty, if_true]
      constructor
      · exact dictGet_dictRemove_self mca.domain_agents a.meta.domain
      · rw [MasterControlAgent.get_agents_by_domain]
        simp only [dictGet_dictRemove_self]
  · -- unregistering an unknown id
    intro h
    rw [MasterControlAgent.get_agent] at h
    unfold MasterControlAgent.unregister_agent
    rw [h]
  · -- register preserves the weak invariant
    intro hC
    intro dname ids i hda hmem
    simp only [MasterControlAgent.register_agent] at hda
    by_cases hi : i = b.meta.agent_id
    · subst hi
      simp [MasterControlAgent.register_agent, dictGet_dictSet_self]
    · simp only [MasterControlAgent.register_agent]
      rw [dictGet_dictSet_ne _ _ _ _ hi]
      by_cases hd : dname = b.meta.domain
      · subst hd
        rw [dictGet_dictModify_self] at hda
        by_cases hcont : dictContains mca.domain_agents b.meta.domain
        · rw [if_pos hcont] at hda
          obtain ⟨old, hold⟩ := Option.isSome_iff_exists.mp (by
            rw [dictContains] at hcont
            exact hcont)
          rw [hold] at hda
          simp only [Option.map_some'] at hda
          have hids : ids = old ++ [b.meta.agent_id] := by
            cases hda
            rfl
          rw [hids] at hmem
          rcases List.mem_append.mp hmem with h1 | h1
          · have h3 := (consistent_bucket_spec hC hold).2.2 i h1
            rcases Option.map_eq_some'.mp h3 with ⟨ag, hag, _⟩
            simp [hag]
          · exact absurd (List.mem_singleton.mp h1) hi
        · rw [if_neg hcont, dictGet_dictSet_self] at hda
          simp only [Option.map_some', List.nil_append] at hda
          have hids : ids = [b.meta.agent_id] := by
            cases hda
            rfl
          rw [hids] at hmem
          exact absurd (List.mem_singleton.mp hmem) hi
      · rw [dictGet_dictModify_ne _ _ _ _ hd] at hda
        have horig : dictGet mca.domain_agents dname = some ids := by
          by_cases hcont : dictContains mca.domain_agents b.meta.domain
          · rwa [if_pos hcont] at hda
          · rw [if_neg hcont, dictGet_dictSet_ne _ _ _ _ hd] at hda
            exact hda
        have h3 := (consistent_bucket_spec hC horig).2.2 i hmem
        rcases Option.map_eq_some'.mp h3 with ⟨ag, hag, _⟩
        simp [hag]
  · -- unregister preserves the weak invariant
    intro hC
    cases hget : dictGet mca.agents aid with
    | none =>
        have : mca.unregister_agent aid = mca := by
          simp only [MasterControlAgent.unregister_agent, hget]
        rw [this]
        exact consistent_weakInv hC
    | some a' =>
        obtain ⟨ids0, hda, hmem⟩ := consistent_agent_bucket hC hget
        have hcont : ids0.contains aid = true := by simpa using hmem
        have hnodup0 := (consistent_bucket_spec hC hda).2.1
        have hu : mca.unregister_agent aid =
            { mca with
              agents := dictRemove mca.agents aid
              domain_agents :=
                if (removeFirst ids0 aid).isEmpty then
                  dictRemove mca.domain_agents a'.meta.domain
                else dictSet mca.domain_agents a'.meta.domain (removeFirst ids0 aid) } := by
          simp only [MasterControlAgent.unregister_agent, hget, hda, hcont, if_true]
        intro dname ids i h hmem'
        rw [hu] at h ⊢
        simp only at h ⊢
        by_cases hd : dname = a'.meta.domain
        · subst hd
          by_cases hEmpty : (removeFirst ids0 aid).isEmpty
          · rw [if_pos hEmpty, dictGet_dictRemove_self] at h
            exact absurd h (by simp)
          · rw [if_neg hEmpty, dictGet_dictSet_self] at h
            have hids : ids = removeFirst ids0 aid := by
              cases h
              rfl
            rw [hids] at hmem'
            have hi0 : i ∈ ids0 := mem_of_mem_removeFirst hmem'
            have hine : i ≠ aid := by
              intro hcontra
              exact not_mem_removeFirst_self hnodup0 (hcontra ▸ hmem')
            rw [dictGet_dictRemove_ne _ _ _ hine]
            have h3 := (consistent_bucket_spec hC hda).2.2 i hi0
            rcases Option.map_eq_some'.mp h3 with ⟨ag, hag, _⟩
            simp [hag]
        · have horig : dictGet mca.domain_agents dname = some ids := by
            by_cases hEmpty : (removeFirst ids0 aid).isEmpty
            · rw [if_pos hEmpty, dictGet_dictRemove_ne _ _ _ hd] at h
              exact h
            · rw [if_neg hEmpty, dictGet_dictSet_ne _ _ _ _ hd] at h
              exact h
          have h3 := (consistent_bucket_spec hC horig).2.2 i hmem'
          have hine : i ≠ aid := by
            intro hcontra
            rw [hcontra, hget] at h3
            simp only [Option.map_some'] at h3
            cases h3
            exact hd rfl
          rw [dictGet_dictRemove_ne _ _ _ hine]
          rcases Option.map_eq_some'.mp h3 with ⟨ag, hag, _⟩
          simp [hag]

theorem registry_unregister_register_invariants_witness :
    (oneAgentMca.unregister_agent "a1").get_agent "a1" = Option.none ∧
    (oneAgentMca.unregister_agent "zz") = oneAgentMca := by
  constructor
  · exact ((registry_unregister_register_invariants oneAgentMca "a1" alphaAgent
      alphaAgent).1 (by decide) (by rfl)).1
  · exact (registry_unregister_register_invariants oneAgentMca "zz" alphaAgent
      alphaAgent).2.1 (by rfl)

/-- C7: re-registering an agent whose id is already registered (same
agent id, same domain) silently overwrites the primary-map entry and
appends the id to its domain bucket without removing the earlier
occurrence, so the bucket then holds the id twice. -/
theorem registry_register_duplicate_id (mca : MasterControlAgent) (a a0 : Agent)
    (hC : Consistent mca)
    (hget : dictGet mca.agents a.meta.agent_id = some a0)
    (hdom : a.meta.domain = a0.meta.domain) :
    dictGet (mca.register_agent a).agents a.meta.agent_id = some a ∧
    ∃ ids, dictGet mca.domain_agents a.meta.domain = some ids ∧
      dictGet (mca.register_agent a).domain_agents a.meta.domain =
        some (ids ++ [a.meta.agent_id]) ∧
      List.count a.meta.agent_id ids = 1 ∧
      List.count a.meta.agent_id (ids ++ [a.meta.agent_id]) = 2 := by
  obtain ⟨ids, hda, hmem⟩ := consistent_agent_bucket hC hget
  rw [← hdom] at hda
  have hnodup := (consistent_bucket_spec hC hda).2.1
  have hcont : dictContains mca.domain_agents a.meta.domain := by
    rw [dictContains, hda]
    rfl
  refine ⟨?_, ids, hda, ?_, ?_, ?_⟩
  · rw [MasterControlAgent.register_agent]
    simp only
    exact dictGet_dictSet_self mca.agents a.meta.agent_id a
  · rw [MasterControlAgent.register_agent]
    simp only [if_pos hcont]
    rw [dictGet_dictModify_self, hda]
    rfl
  · exact List.count_eq_one_of_mem hnodup hmem
  · rw [List.count_append, List.count_eq_one_of_mem hnodup hmem,
      List.count_singleton_self]

theorem registry_register_duplicate_id_witness :
    dictGet (oneAgentMca.register_agent alphaAgent).agents "a1" = some alphaAgent ∧
    dictGet (oneAgentMca.register_agent alphaAgent).domain_agents "alpha" =
      some ["a1", "a1"] := by
  have h := registry_register_duplicate_id oneAgentMca alphaAgent alphaAgent
    (by decide) (by rfl) rfl
  obtain ⟨h1, ids, hda, hset, _, _⟩ := h
  have hids : ids = ["a1"] := by
    have h0 : dictGet oneAgentMca.domain_agents alphaAgent.meta.domain = some ["a1"] := by rfl
    rw [h0] at hda
    cases hda
    rfl
  constructor
  · exact h1
  · rw [hids] at hset
    exact hset

/-- C3 counterexample: with one registered handler (domain `"alpha"`)
and the query `"hello"` that matches no domain keyword, `process_query`
with no explicit id and no domain returns a `status="error"` envelope —
it does not fall back to the registered handler, contradicting the claim
that an error is only possible when no handler at all is registered. -/
theorem keyword_fallback_counterexample :
    (oneAgentMca.process_query "hello" Option.none Option.none Option.none 0 1).1.status
        = "error" ∧
    oneAgentMca.agents.length = 1 := by
  constructor
  · decide
  · decide

theorem scan_domains_eq_find (da : List (String × List String)) (q : String) :
    MasterControlAgent.scan_domains da q =
      (da.find? (fun p => pyInStr (strLower p.1) (strLower q) && !p.2.isEmpty)).bind
        (fun p => p.2.head?) := by
  induction da with
  | nil => rfl
  | cons p rest ih =>
    obtain ⟨dn, ids⟩ := p
    by_cases hm : pyInStr (strLower dn) (strLower q)
    · cases ids with
      | nil => simp [MasterControlAgent.scan_domains, hm, List.find?, ih]
      | cons x xs => simp [MasterControlAgent.scan_domains, hm, List.find?]
    · simp [MasterControlAgent.scan_domains, hm, List.find?, ih]

/-- C3 (amended): with no explicit handler id and no usable domain,
`determine_agent` scans the registered domain index in insertion order
and returns the first id of the first domain whose lowercased name is a
substring of the lowercased query and whose bucket is non-empty; when no
domain name matches, no handler is selected and `process_query` returns
a `status="error"` envelope — even when handlers are registered (there
is no fallback to an arbitrary registered handler, and the keyword table
is the registry's domain index, not a fixed table). -/
theorem determine_agent_scan_no_fallback (mca : MasterControlAgent) (query : String)
    (agent_id domain : Option String) (ctx : Option PyDict) (t1 t2 : ℚ) :
    (mca.determine_agent query Option.none =
      (mca.domain_agents.find? (fun p =>
          pyInStr (strLower p.1) (strLower query) && !p.2.isEmpty)).bind
        (fun p => p.2.head?)) ∧
    (pyTruthy agent_id = false → pyTruthy domain = false →
      mca.determine_agent query Option.none = Option.none →
      (mca.process_query query agent_id domain ctx t1 t2).1.status = "error") := by
  constructor
  · rw [MasterControlAgent.determine_agent]
    simp only [pyTruthy, if_false]
    exact scan_domains_eq_find mca.domain_agents query
  · intro h1 h2 h3
    simp only [MasterControlAgent.process_query, MasterControlAgent.select_for_query,
      h1, h2, h3, Bool.false_eq_true, if_false]
    rfl

theorem determine_agent_scan_no_fallback_witness :
    (oneAgentMca.process_query "xyz" Option.none Option.none Option.none 0 1).1.status
        = "error" :=
  (determine_agent_scan_no_fallback oneAgentMca "xyz" Option.none Option.none
    Option.none 0 1).2 rfl rfl (by decide)

theorem direct_handle_event_status (event : String) (data : QueryData) :
    (DirectProtocol.handle_event event data).status = "success" ∨
    (DirectProtocol.handle_event event data).status = "error" := by
  unfold DirectProtocol.handle_event DirectProtocol.handle_query
  by_cases he : event = "query"
  · rw [if_pos he]
    cases data.agent with
    | none => right; rfl
    | some aO =>
        cases data.query with
        | none => right; rfl
        | some q =>
            cases aO with
            | none => right; rfl
            | some agent =>
                cases hp : agent.process q (data.context.getD []) with
                | error e => right; simp [hp]
                | ok r =>
                    by_cases hv : agent.validate r
                    · left; simp [hp, hv]
                    · right; simp [hp, hv]
  · rw [if_neg he]
    right
    rfl

theorem collab_handle_event_status (event : String) (data : CollabData) :
    (CollaborativeProtocol.handle_event event data).status = "success" ∨
    (CollaborativeProtocol.handle_event event data).status = "error" := by
  unfold CollaborativeProtocol.handle_event CollaborativeProtocol.handle_collaborate
  by_cases he : event = "collaborate"
  · rw [if_pos he]
    cases data.primary_agent with
    | none => right; rfl
    | some p =>
        cases data.support_agents with
        | none => right; rfl
        | some ss =>
            cases data.query with
            | none => right; rfl
            | some q =>
                cases hp : p.process q (data.context.getD []) with
                | error e => right; simp [hp]
                | ok pr =>
                    by_cases hv : p.validate pr
                    · cases hr : CollaborativeProtocol.run_supports ss q
                        (CollaborativeProtocol.extract_response_info pr)
                        (CollaborativeProtocol.collab_context
                          (CollaborativeProtocol.extract_response_info pr) q
                          (data.context.getD [])) with
                      | error e => right; simp [hp, hv, hr]
                      | ok srs =>
                          cases hi : CollaborativeProtocol.integrate_responses pr srs with
                          | error e => right; simp [hp, hv, hr, hi]
                          | ok ir => left; simp [hp, hv, hr, hi]
                    · right; simp [hp, hv]
  · rw [if_neg he]
    right
    rfl

theorem select_for_query_error_status (mca : MasterControlAgent) (query : String)
    (agent_id domain : Option String) (env : Envelope)
    (h : MasterControlAgent.select_for_query mca query agent_id domain = .error env) :
    env.status = "error" := by
  unfold MasterControlAgent.select_for_query at h
  by_cases h1 : pyTruthy agent_id
  · rw [if_pos h1] at h
    cases hg : MasterControlAgent.get_agent mca (agent_id.getD "") with
    | some a => rw [hg] at h; exact absurd h (by simp)
    | none =>
        rw [hg] at h
        cases h
        rfl
  · rw [if_neg h1] at h
    by_cases h2 : pyTruthy domain
    · rw [if_pos h2] at h
      cases hg : MasterControlAgent.get_agents_by_domain mca (domain.getD "") with
      | cons a rest => rw [hg] at h; exact absurd h (by simp)
      | nil =>
          rw [hg] at h
          cases h
          rfl
    · rw [if_neg h2] at h
      cases hg : MasterControlAgent.determine_agent mca query Option.none with
      | some did =>
          rw [hg] at h
          simp only [] at h
          by_cases hd : did ≠ ""
          · rw [if_pos hd] at h
            exact absurd h (by simp)
          · rw [if_neg hd] at h
            cases h
            rfl
      | none =>
          rw [hg] at h
          cases h
          rfl

/-- C1: `process_query` and `collaborate` are total (no exception can
propagate to the caller) and always return an envelope whose `status` is
one of `success`, `error` or `blocked`; in particular, when the selected
agent's `process_query` raises (an `Except.error` result of its
`process`) and governance does not block, the exception is caught at the
protocol boundary and converted into a `status="error"` envelope
carrying the exception text. -/
theorem envelope_status_and_exception_conversion (mca : MasterControlAgent)
    (query : String) (agent_id domain : Option String) (ctx : Option PyDict)
    (t1 t2 : ℚ) (pid : String) (sids : List String) (a : Agent) (e : String) :
    (mca.process_query query agent_id domain ctx t1 t2).1.status ∈
      (["success", "error", "blocked"] : List String) ∧
    (mca.collaborate query pid sids ctx t1 t2).1.status ∈
      (["success", "error", "blocked"] : List String) ∧
    (MasterControlAgent.select_for_query mca query agent_id domain = .ok (some a) →
      (mca.governance.enforce
        { agent := some a.meta, query := query, context := ctx.getD [] }).action ≠ "block" →
      a.process query (ctx.getD []) = .error e →
      (mca.process_query query agent_id domain ctx t1 t2).1.status = "error" ∧
      (mca.process_query query agent_id domain ctx t1 t2).1.error = some (.str e)) := by
  refine ⟨?_, ?_, ?_⟩
  · -- process_query status is success, error or blocked
    cases hsel : MasterControlAgent.select_for_query mca query agent_id domain with
    | error env =>
        have h := select_for_query_error_status mca query agent_id domain env hsel
        simp [MasterControlAgent.process_query, hsel, h]
    | ok agentOpt =>
        cases agentOpt with
        | some agent =>
            by_cases hb : (mca.governance.enforce
                { agent := some agent.meta, query := query,
                  context := ctx.getD [] }).action = "block"
            · simp [MasterControlAgent.process_query, hsel, hb]
            · rcases direct_handle_event_status "query"
                  { agent := some (some agent), query := some query,
                    context := some (ctx.getD []) } with hst | hst <;>
                by_cases hw : (mca.governance.enforce
                    { agent := some agent.meta, query := query,
                      context := ctx.getD [] }).action = "warn" <;>
                  simp [MasterControlAgent.process_query, hsel, hb, hw, hst]
        | none =>
            by_cases hb : (mca.governance.enforce
                { agent := (Option.none : Option AgentMeta), query := query,
                  context := ctx.getD [] }).action = "block"
            · simp [MasterControlAgent.process_query, hsel, hb, format_error_response]
            · rcases direct_handle_event_status "query"
                  { agent := some Option.none, query := some query,
                    context := some (ctx.getD []) } with hst | hst <;>
                by_cases hw : (mca.governance.enforce
                    { agent := (Option.none : Option AgentMeta), query := query,
                      context := ctx.getD [] }).action = "warn" <;>
                  simp [MasterControlAgent.process_query, hsel, hb, hw, hst]
  · -- collaborate status is success, error or blocked
    cases hp : MasterControlAgent.get_agent mca pid with
    | none => simp [MasterControlAgent.collaborate, hp, format_error_response]
    | some primary =>
        by_cases hm : (sids.filter
            (fun i => (MasterControlAgent.get_agent mca i).isNone)).isEmpty
        · rcases collab_handle_event_status "collaborate"
              { primary_agent := some primary,
                support_agents := some (sids.filterMap (MasterControlAgent.get_agent mca)),
                query := some query, context := some (ctx.getD []) } with hst | hst <;>
            · simp only [MasterControlAgent.collaborate, hp, hm, if_true]
              repeat' split
              all_goals simp_all
        · simp [MasterControlAgent.collaborate, hp, hm, format_error_response]
  · -- a raised agent exception becomes a status=error envelope
    intro hsel hnb hraise
    have hprot : DirectProtocol.handle_event "query"
        { agent := some (some a), query := some query, context := some (ctx.getD []) } =
        { status := "error", protocol_id := some "direct_protocol",
          event := some "query", error := some (.str e) } := by
      unfold DirectProtocol.handle_event DirectProtocol.handle_query
      rw [if_pos rfl]
      simp only [Option.getD_some, hraise]
    by_cases hw : (mca.governance.enforce
        { agent := some a.meta, query := query, context := ctx.getD [] }).action = "warn" <;>
      simp [MasterControlAgent.process_query, hsel, hnb, hprot, hw]

theorem envelope_status_and_exception_conversion_witness :
    (raisingMca.process_query "q" (some "a2") Option.none Option.none 0 1).1.status
        = "error" ∧
    (raisingMca.process_query "q" (some "a2") Option.none Option.none 0 1).1.error
        = some (.str "boom") :=
  (envelope_status_and_exception_conversion raisingMca "q" (some "a2") Option.none
    Option.none 0 1 "p" [] raisingAgent "boom").2.2 rfl (by decide) rfl

theorem dictGet_map_snd {α β : Type} (l : List (String × α)) (φ : α → β) (k : String) :
    dictGet (l.map (fun p => (p.1, φ p.2))) k = (dictGet l k).map φ := by
  induction l with
  | nil => simp [dictGet]
  | cons p rest ih =>
    by_cases h : p.1 = k
    · simp [dictGet, h]
    · simpa [dictGet, h] using ih

theorem get_agent_mapAgents (mca : MasterControlAgent) (φ : Agent → Agent) (k : String) :
    (mapAgents φ mca).get_agent k = (mca.get_agent k).map φ := by
  unfold MasterControlAgent.get_agent mapAgents
  exact dictGet_map_snd mca.agents φ k

theorem get_agents_by_domain_mapAgents (mca : MasterControlAgent) (φ : Agent → Agent)
    (d : String) :
    (mapAgents φ mca).get_agents_by_domain d = (mca.get_agents_by_domain d).map φ := by
  unfold MasterControlAgent.get_agents_by_domain
  have hda : (mapAgents φ mca).domain_agents = mca.domain_agents := rfl
  rw [hda]
  cases dictGet mca.domain_agents d with
  | none => rfl
  | some ids =>
      simp only [get_agent_mapAgents]
      induction ids with
      | nil => rfl
      | cons i rest ih =>
          cases hg : mca.get_agent i with
          | none => simpa [List.filterMap_cons, hg] using ih
          | some ag => simpa [List.filterMap_cons, hg] using ih

theorem determine_agent_mapAgents (mca : MasterControlAgent) (φ : Agent → Agent)
    (query : String) (domain : Option String) (hφ : ∀ x, (φ x).meta = x.meta) :
    (mapAgents φ mca).determine_agent query domain = mca.determine_agent query domain := by
  unfold MasterControlAgent.determine_agent
  have hda : (mapAgents φ mca).domain_agents = mca.domain_agents := rfl
  rw [hda, get_agents_by_domain_mapAgents]
  cases mca.get_agents_by_domain (domain.getD "") with
  | nil => rfl
  | cons ag rest => simp [hφ ag]

theorem select_for_query_mapAgents (mca : MasterControlAgent) (query : String)
    (agent_id domain : Option String) (φ : Agent → Agent)
    (hφ : ∀ x, (φ x).meta = x.meta) :
    (mapAgents φ mca).select_for_query query agent_id domain =
      (mca.select_for_query query agent_id domain).map (Option.map φ) := by
  unfold MasterControlAgent.select_for_query
  by_cases h1 : pyTruthy agent_id
  · rw [if_pos h1, if_pos h1, get_agent_mapAgents]
    cases mca.get_agent (agent_id.getD "") with
    | none => rfl
    | some ag => rfl
  · rw [if_neg h1, if_neg h1]
    by_cases h2 : pyTruthy domain
    · rw [if_pos h2, if_pos h2, get_agents_by_domain_mapAgents]
      cases mca.get_agents_by_domain (domain.getD "") with
      | nil => rfl
      | cons ag rest => rfl
    · rw [if_neg h2, if_neg h2, determine_agent_mapAgents mca φ query Option.none hφ]
      cases mca.determine_agent query Option.none with
      | none => rfl
      | some did =>
          by_cases hd : did ≠ ""
          · simp [hd, get_agent_mapAgents, Except.map]
          · simp [hd, Except.map]

/-- C4: when governance enforcement for the selected agent yields action
`block`, `process_query` returns immediately with `status="blocked"` and
the blocking violations; the monitoring state — in particular the timing
metric's armed start and the `response_time` metric's recorded values —
is returned unchanged, and the outcome is invariant under any
meta-preserving replacement of every registered agent's
`process`/`validate` behaviour: the selected agent is never invoked. -/
theorem process_query_blocked_short_circuit (mca : MasterControlAgent) (query : String)
    (agent_id domain : Option String) (ctx : Option PyDict) (t1 t2 : ℚ) (a : Agent)
    (φ : Agent → Agent)
    (hsel : MasterControlAgent.select_for_query mca query agent_id domain = .ok (some a))
    (hblock : (mca.governance.enforce
      { agent := some a.meta, query := query, context := ctx.getD [] }).action = "block")
    (hφ : ∀ x, (φ x).meta = x.meta) :
    (mca.process_query query agent_id domain ctx t1 t2).1.status = "blocked" ∧
    (mca.process_query query agent_id domain ctx t1 t2).1.violations =
      some (mca.governance.enforce
        { agent := some a.meta, query := query, context := ctx.getD [] }).violations ∧
    (mca.process_query query agent_id domain ctx t1 t2).2 = mca.monitoring ∧
    (mapAgents φ mca).process_query query agent_id domain ctx t1 t2 =
      mca.process_query query agent_id domain ctx t1 t2 := by
  have hres : mca.process_query query agent_id domain ctx t1 t2 =
      ({ status := "blocked",
         error := some (.str (mca.governance.enforce
           { agent := some a.meta, query := query, context := ctx.getD [] }).message),
         violations := some (mca.governance.enforce
           { agent := some a.meta, query := query, context := ctx.getD [] }).violations,
         agent_id := some a.meta.agent_id, domain := some a.meta.domain,
         query := some query }, mca.monitoring) := by
    simp [MasterControlAgent.process_query, hsel, hblock]
  have hsel' : (mapAgents φ mca).select_for_query query agent_id domain =
      .ok (some (φ a)) := by
    rw [select_for_query_mapAgents mca query agent_id domain φ hφ, hsel]
    rfl
  have hgov : (mapAgents φ mca).governance = mca.governance := rfl
  have hmon : (mapAgents φ mca).monitoring = mca.monitoring := rfl
  have hres' : (mapAgents φ mca).process_query query agent_id domain ctx t1 t2 =
      ({ status := "blocked",
         error := some (.str (mca.governance.enforce
           { agent := some a.meta, query := query, context := ctx.getD [] }).message),
         violations := some (mca.governance.enforce
           { agent := some a.meta, query := query, context := ctx.getD [] }).violations,
         agent_id := some a.meta.agent_id, domain := some a.meta.domain,
         query := some query }, mca.monitoring) := by
    simp [MasterControlAgent.process_query, hsel', hgov, hmon, hφ a, hblock]
  refine ⟨?_, ?_, ?_, ?_⟩
  · rw [hres]
  · rw [hres]
  · rw [hres]
  · rw [hres', hres]

theorem process_query_blocked_short_circuit_witness :
    (blockingMca.process_query "q" (some "a1") Option.none Option.none 0 1).1.status
        = "blocked" ∧
    (blockingMca.process_query "q" (some "a1") Option.none Option.none 0 1).2
        = blockingMca.monitoring := by
  have h := process_query_blocked_short_circuit blockingMca "q" (some "a1") Option.none
    Option.none 0 1 alphaAgent (fun x => x) rfl (by decide) (fun x => rfl)
  exact ⟨h.1, h.2.2.1⟩

theorem run_supports_all_ok (ss : List Agent) (q : String) (pinfo cctx : PyDict)
    (resp : Agent → PyDict)
    (h : ∀ s ∈ ss,
      s.process (CollaborativeProtocol.generate_collaboration_query q pinfo s) cctx =
        .ok (resp s)) :
    CollaborativeProtocol.run_supports ss q pinfo cctx =
      .ok ((ss.filter (fun s => s.validate (resp s))).map resp) := by
  induction ss with
  | nil => rfl
  | cons s rest ih =>
      have hs := h s (List.mem_cons_self s rest)
      have hrest := ih (fun x hx => h x (List.mem_cons_of_mem _ hx))
      by_cases hval : s.validate (resp s) <;>
        simp [CollaborativeProtocol.run_supports, hs, hrest, List.filter_cons, hval]

theorem set_combined_insights_ok_get_ne (d : PyDict) (ins : List PyVal)
    (d2 : PyDict) (k : String) (hne : k ≠ "data")
    (h : CollaborativeProtocol.set_combined_insights d ins = .ok d2) :
    dictGet d2 k = dictGet d k := by
  cases hd : dictGet d "data" with
  | none =>
      simp only [CollaborativeProtocol.set_combined_insights, hd, Except.ok.injEq] at h
      rw [← h, dictGet_dictSet_ne _ _ _ _ hne]
  | some v =>
      cases v with
      | dict dd =>
          simp only [CollaborativeProtocol.set_combined_insights, hd, Except.ok.injEq] at h
          rw [← h, dictGet_dictSet_ne _ _ _ _ hne]
      | none => simp [CollaborativeProtocol.set_combined_insights, hd] at h
      | str a => simp [CollaborativeProtocol.set_combined_insights, hd] at h
      | num a => simp [CollaborativeProtocol.set_combined_insights, hd] at h
      | bool a => simp [CollaborativeProtocol.set_combined_insights, hd] at h
      | list a => simp [CollaborativeProtocol.set_combined_insights, hd] at h

theorem integrate_responses_ok_gets (pr : PyDict) (srs : List PyDict) (ir : PyDict)
    (h : CollaborativeProtocol.integrate_responses pr srs = .ok ir) :
    dictGet ir "support_contributions" =
      some (.list (srs.map CollaborativeProtocol.contribution_of)) ∧
    dictGet ir "status" = dictGet pr "status" := by
  simp only [CollaborativeProtocol.integrate_responses] at h
  cases hc : CollaborativeProtocol.collect_insights [] srs with
  | error e => simp [hc] at h
  | ok ins =>
      simp only [hc] at h
      by_cases hins : ins.isEmpty
      · rw [if_pos hins] at h
        simp only [Except.ok.injEq] at h
        rw [← h]
        constructor
        · rw [dictGet_dictSet_ne _ _ _ _ (by decide), dictGet_dictSet_self]
        · rw [dictGet_dictSet_ne _ _ _ _ (by decide),
            dictGet_dictSet_ne _ _ _ _ (by decide)]
      · rw [if_neg hins] at h
        cases hsc : CollaborativeProtocol.set_combined_insights
            (dictSet pr "support_contributions"
              (.list (srs.map CollaborativeProtocol.contribution_of))) ins with
        | error e => rw [hsc] at h; simp at h
        | ok i2 =>
            rw [hsc] at h
            simp only [Except.ok.injEq] at h
            rw [← h]
            constructor
            · rw [dictGet_dictSet_ne _ _ _ _ (by decide),
                set_combined_insights_ok_get_ne _ _ _ _ (by decide) hsc,
                dictGet_dictSet_self]
            · rw [dictGet_dictSet_ne _ _ _ _ (by decide),
                set_combined_insights_ok_get_ne _ _ _ _ (by decide) hsc,
                dictGet_dictSet_ne _ _ _ _ (by decide)]

/-- C5 counterexample: a collaboration whose primary response passes
validation (it carries the five required keys, with `"data": "x"` a
string) and whose single support agent returns a response passing its
own validation (M = N = 1) that carries `data.insights`.  The claim
promises an integrated response with exactly one contribution, but
`_integrate_responses` raises a TypeError assigning
`integrated_response["data"]["combined_insights"]` into the non-dict
`data` value, and the protocol returns a `status="error"` envelope with
no integrated response at all. -/
theorem collaboration_insights_typeerror_counterexample :
    badDataPrimaryFixture.validate primaryBadDataResponse = true ∧
    insightSupportFixture.validate insightSupportResponse = true ∧
    (CollaborativeProtocol.handle_collaborate
      { primary_agent := some badDataPrimaryFixture,
        support_agents := some [insightSupportFixture],
        query := some "make", context := some [] }).status = "error" ∧
    (CollaborativeProtocol.handle_collaborate
      { primary_agent := some badDataPrimaryFixture,
        support_agents := some [insightSupportFixture],
        query := some "make", context := some [] }).response = Option.none := by
  refine ⟨rfl, rfl, ?_, ?_⟩
  · decide
  · rfl

/-- C5 (amended): in a collaboration whose primary response passes
validation, whose N support agents all return responses of which exactly
those in the validation-passing sublist pass their own
`validate_response`, and whose insights-merging step succeeds (the
source can raise a TypeError there, which becomes a `status="error"`
envelope with no integrated response), the protocol succeeds and the
integrated response carries exactly those M contributions, in the order
their agents appeared in the support list, and the `status` key of the
integrated (primary) response equals the primary response's original
`status`, unaffected by support validation failures. -/
theorem collaboration_support_contributions (p : Agent) (ss : List Agent) (q : String)
    (ctx pr : PyDict) (resp : Agent → PyDict) (ir : PyDict)
    (hp : p.process q ctx = .ok pr)
    (hv : p.validate pr = true)
    (hs : ∀ s ∈ ss, s.process
        (CollaborativeProtocol.generate_collaboration_query q
          (CollaborativeProtocol.extract_response_info pr) s)
        (CollaborativeProtocol.collab_context
          (CollaborativeProtocol.extract_response_info pr) q ctx) = .ok (resp s))
    (hint : CollaborativeProtocol.integrate_responses pr
        ((ss.filter (fun s => s.validate (resp s))).map resp) = .ok ir) :
    (CollaborativeProtocol.handle_collaborate
      { primary_agent := some p, support_agents := some ss,
        query := some q, context := some ctx }).status = "success" ∧
    (CollaborativeProtocol.handle_collaborate
      { primary_agent := some p, support_agents := some ss,
        query := some q, context := some ctx }).response = some ir ∧
    dictGet ir "support_contributions" =
      some (.list ((ss.filter (fun s => s.validate (resp s))).map
        (fun s => CollaborativeProtocol.contribution_of (resp s)))) ∧
    dictGet ir "status" = dictGet pr "status" := by
  have hrun := run_supports_all_ok ss q (CollaborativeProtocol.extract_response_info pr)
    (CollaborativeProtocol.collab_context
      (CollaborativeProtocol.extract_response_info pr) q ctx) resp hs
  have hout : CollaborativeProtocol.handle_collaborate
      { primary_agent := some p, support_agents := some ss,
        query := some q, context := some ctx } =
      { status := "success", protocol_id := some "collaborative_protocol",
        event := some "collaborate", response := some ir } := by
    unfold CollaborativeProtocol.handle_collaborate
    simp only [Option.getD_some, hp, hv, if_true, hrun, hint]
  have hgets := integrate_responses_ok_gets pr
    ((ss.filter (fun s => s.validate (resp s))).map resp) ir hint
  refine ⟨by rw [hout], by rw [hout], ?_, hgets.2⟩
  rw [hgets.1, List.map_map]
  rfl

theorem collaboration_support_contributions_witness :
    (CollaborativeProtocol.handle_collaborate
      { primary_agent := some primaryFixture,
        support_agents := some [goodSupportFixture, badSupportFixture],
        query := some "make", context := some [] }).status = "success" := by
  have h := collaboration_support_contributions primaryFixture
    [goodSupportFixture, badSupportFixture] "make" [] primaryResponseFixture
    (fun s => if s.meta.agent_id = "s1" then goodSupportResponse else badSupportResponse)
    _ rfl rfl ?_ rfl
  · exact h.1
  · intro s hsmem
    rcases List.mem_cons.mp hsmem with h1 | h1
    · subst h1
      rfl
    · rcases List.mem_cons.mp h1 with h2 | h2
      · subst h2
        rfl
      · exact absurd h2 (List.not_mem_nil s)

end ElementumDSA
